import Mathlib

/-!
Shallow embedding of the czml-vanilla-editor command subsystem.

The JavaScript sources are translated into executable Lean definitions:

* `GeometryUtils` — `src/utils/GeometryUtils.js` (coordinate validation,
  coordinate-text parsing, polyline length);
* `CommandHistory` — the undo/redo stack of `src/commands/CommandSystem.js`;
* `CzmlModel` — the geometry store of `src/models/CzmlModel.js`;
* `CommandBase` — the handler base class of `src/commands/base/CommandBase.js`
  (unified confirmation machinery, `finish`);
* the concrete commands and handlers (`AddPointCommand.js`,
  `AddPolylineCommand.js`, `EditPointCommand.js`, `UtilityCommands.js`,
  and the revised AddPoint handler iteration);
* `CommandSystem` — the dispatcher (`parseAndExecute`, `handleMapClick`).

Modelling conventions:

* JavaScript numbers are modelled as exact rationals (`ℚ`); where NaN and
  the infinities are observable (`validateCoordinate`) a dedicated `JSNum`
  type is used.  Binary floating-point rounding is not modelled.
* JavaScript exceptions are modelled with `Except JsError`; a function that
  can only throw via a caller-supplied capability is `Except`-valued.
  In-place mutations performed before a throw that propagates out of the
  modelled function are not preserved by the model (the exception value
  carries no state).
* `console.log` / `console.warn` output is not modelled.
* Compact entity ids (`PT_xxxxxxxx`, produced from timestamp + randomness
  by `CompactIdUtils`) are modelled by a deterministic counter carried in
  the store state: the n-th generated id is `PT_<n>`.
* `Cesium.Cartesian3.distance` (real geodesic geometry through the global
  `window.Cesium`) is an external capability; it is modelled as a
  context-supplied function `Coordinate → Coordinate → Option ℚ`, `none`
  standing for the `null` results of `GeometryUtils.calculateDistance`.
-/

/-- A geographic coordinate `{lon, lat, height}` with finite numeric
fields, as produced by map picks and by `GeometryUtils.parseCoordinate`. -/
structure Coordinate where
  lon : ℚ
  lat : ℚ
  height : ℚ
deriving DecidableEq, Repr

/-- A JavaScript number: NaN, the two infinities, or a finite value
(modelled exactly as a rational). -/
inductive JSNum where
  | nan : JSNum
  | posInf : JSNum
  | negInf : JSNum
  | fin : ℚ → JSNum
deriving DecidableEq, Repr

namespace JSNum

/-- JavaScript `isNaN(x)` for a number `x`. -/
def isNaN : JSNum → Bool
  | .nan => true
  | _ => false

/-- JavaScript `x < a` for a number `x` and a finite literal `a`
(`NaN` compares false). -/
def ltConst : JSNum → ℚ → Bool
  | .nan, _ => false
  | .posInf, _ => false
  | .negInf, _ => true
  | .fin q, a => decide (q < a)

/-- JavaScript `x > a` for a number `x` and a finite literal `a`
(`NaN` compares false). -/
def gtConst : JSNum → ℚ → Bool
  | .nan, _ => false
  | .posInf, _ => true
  | .negInf, _ => false
  | .fin q, a => decide (a < q)

end JSNum

/-- The value of a JavaScript property access used by `validateCoordinate`:
`some n` when the property holds a number (its `typeof` is number),
`none` when it is absent or holds a non-number value. -/
abbrev JSNumField := Option JSNum

/-- An argument to `validateCoordinate` that passed the
`coord` object test (truthy and of object type): its `lon`, `lat` and `height`
property values. -/
structure JSCoordObj where
  lon : JSNumField
  lat : JSNumField
  height : JSNumField
deriving DecidableEq, Repr

/-- An argument to `validateCoordinate`: `none` models a falsy or
non-object value, `some o` an object with the three inspected fields. -/
abbrev JSCoordVal := Option JSCoordObj

/-! `Rat.add`, `Rat.sub`, `Rat.mul` and the rational `OfScientific`
literals are `@[irreducible]` in this toolchain, so the embedding builds
the few rational values it computes with `mkRat` (which the kernel does
evaluate); the values are the same rationals. -/

/-- Exact rational addition, kernel-computable:
`a + b = (a.num * b.den + b.num * a.den) / (a.den * b.den)`. -/
def qAdd (a b : ℚ) : ℚ :=
  mkRat (a.num * (b.den : Int) + b.num * (a.den : Int)) (a.den * b.den)

/-- Exact rational subtraction, kernel-computable. -/
def qSub (a b : ℚ) : ℚ :=
  mkRat (a.num * (b.den : Int) - b.num * (a.den : Int)) (a.den * b.den)

/-- Exact rational multiplication, kernel-computable. -/
def qMul (a b : ℚ) : ℚ :=
  mkRat (a.num * b.num) (a.den * b.den)

/-- JavaScript `String.prototype.trim()`: strip leading and trailing
whitespace (modelled over the ASCII whitespace classifier; the inputs
the embedding evaluates contain no exotic Unicode spaces). -/
def jsTrim (s : String) : String :=
  String.mk (((s.data.dropWhile Char.isWhitespace).reverse.dropWhile
    Char.isWhitespace).reverse)

namespace GeometryUtils

/-- `GeometryUtils.validateCoordinate(coord)`: rejects non-objects, then
checks that `lon` is a non-NaN number with `-180 <= lon <= 180`,
that `lat` is a non-NaN number with `-90 <= lat <= 90`, and
that `height` is a non-NaN number — the height check has no
range or finiteness test beyond `isNaN`. -/
def validateCoordinate : JSCoordVal → Bool
  | none => false
  | some c =>
    match c.lon with
    | none => false
    | some lon =>
      if lon.isNaN || lon.ltConst (-180) || lon.gtConst 180 then false
      else
        match c.lat with
        | none => false
        | some lat =>
          if lat.isNaN || lat.ltConst (-90) || lat.gtConst 90 then false
          else
            match c.height with
            | none => false
            | some height => if height.isNaN then false else true

/-- View a finite `Coordinate` as the JavaScript value handed to
`validateCoordinate`. -/
def coordToJS (c : Coordinate) : JSCoordVal :=
  some ⟨some (.fin c.lon), some (.fin c.lat), some (.fin c.height)⟩

/-- `validateCoordinate` specialised to finite coordinates (the only
values the rest of the embedded code constructs). -/
def validateCoordinateQ (c : Coordinate) : Bool :=
  validateCoordinate (coordToJS c)

/-- `GeometryUtils.validateCoordinates(coordinates, minPoints)`:
an array of at least `minPoints` elements, every one of which validates. -/
def validateCoordinates (coordinates : List Coordinate) (minPoints : Nat) : Bool :=
  decide (minPoints ≤ coordinates.length) && coordinates.all validateCoordinateQ

/-- One field of the coordinate regex: `-?\d+\.?\d*` matched against a
whole comma-separated group. -/
def matchNumField (cs : List Char) : Bool :=
  let cs := match cs with
    | '-' :: rest => rest
    | _ => cs
  let (ds, rest) := cs.span Char.isDigit
  if ds.isEmpty then false
  else
    match rest with
    | [] => true
    | '.' :: frac => frac.all Char.isDigit
    | _ => false

/-- Split a character list at every comma (the groups of the coordinate
regex; none of `-`, digits, `.` can be a comma, so this grouping is exact). -/
def splitOnComma (cs : List Char) : List (List Char) :=
  match cs with
  | [] => [[]]
  | ',' :: rest => [] :: splitOnComma rest
  | c :: rest =>
    match splitOnComma rest with
    | [] => [[c]]
    | g :: gs => (c :: g) :: gs

/-- The coordinate regex `^-?\d+\.?\d*,-?\d+\.?\d*,-?\d+\.?\d*$`:
exactly three comma-separated signed decimal number fields. -/
def coordRegexMatch (cs : List Char) : Bool :=
  match splitOnComma cs with
  | [a, b, c] => matchNumField a && matchNumField b && matchNumField c
  | _ => false

/-- `GeometryUtils.isCoordinateInput(input)`: the regex test on the
trimmed input. -/
def isCoordinateInput (s : String) : Bool :=
  coordRegexMatch (jsTrim s).data

/-- Numeric value of a digit list. -/
def digitsToNat (ds : List Char) : Nat :=
  ds.foldl (fun a c => a * 10 + (c.toNat - 48)) 0

/-- `parseFloat` on a string matching `-?\d+\.?\d*`, modelled exactly:
the signed decimal value of the literal. -/
def parseNumField (cs : List Char) : ℚ :=
  let (neg, cs) := match cs with
    | '-' :: rest => (true, rest)
    | _ => (false, cs)
  let (ds, rest) := cs.span Char.isDigit
  let v : ℚ := match rest with
    | '.' :: frac =>
      mkRat (digitsToNat ds * 10 ^ frac.length + digitsToNat frac : Nat)
        (10 ^ frac.length)
    | _ => (digitsToNat ds : ℚ)
  if neg then -v else v

/-- `GeometryUtils.parseCoordinate(input)`: trims, tests the regex,
splits on commas, parses the three numbers, and returns the coordinate
only when `validateCoordinate` accepts it; `none` otherwise.  The
`parts.length === 3 && parts.every(p => !isNaN(p))` guard of the source is
always satisfied once the regex matched. -/
def parseCoordinate (s : String) : Option Coordinate :=
  let trimmed := (jsTrim s).data
  if coordRegexMatch trimmed then
    match splitOnComma trimmed with
    | [a, b, c] =>
      let coord : Coordinate :=
        ⟨parseNumField a, parseNumField b, parseNumField c⟩
      if validateCoordinateQ coord then some coord else none
    | _ => none
  else none

/-- `GeometryUtils.calculateDistance(coord1, coord2)` over a supplied
Cesium geodesy capability `dist`: `null` unless both coordinates
validate, otherwise whatever the capability yields. -/
def calculateDistance (dist : Coordinate → Coordinate → Option ℚ)
    (c1 c2 : Coordinate) : Option ℚ :=
  if validateCoordinateQ c1 && validateCoordinateQ c2 then dist c1 c2
  else none

/-- Consecutive-pair summation step of `calculatePolylineLength`. -/
def sumPairDistances (dist : Coordinate → Coordinate → Option ℚ) :
    List Coordinate → Option ℚ
  | [] => some 0
  | [_] => some 0
  | a :: b :: rest =>
    match calculateDistance dist a b, sumPairDistances dist (b :: rest) with
    | some d, some s => some (qAdd d s)
    | _, _ => none

/-- `GeometryUtils.calculatePolylineLength(coordinates)`: `null` unless
the list has at least 2 valid coordinates and every pair distance is
available. -/
def calculatePolylineLength (dist : Coordinate → Coordinate → Option ℚ)
    (coordinates : List Coordinate) : Option ℚ :=
  if validateCoordinates coordinates 2 then sumPairDistances dist coordinates
  else none

end GeometryUtils

/-- Left-pad a digit string with zeros to the requested width. -/
def padLeftZeros (s : String) (width : Nat) : String :=
  if s.length < width then String.mk (List.replicate (width - s.length) '0') ++ s
  else s

/-- JavaScript `Math.abs` on an exact rational. -/
def ratAbs (q : ℚ) : ℚ :=
  if q < 0 then -q else q

/-- JavaScript `Number.prototype.toFixed(digits)` on an exact rational:
round the magnitude to `digits` decimal places (ties away from zero) and
print sign, integer part and zero-padded fraction. -/
def formatFixed (digits : Nat) (q : ℚ) : String :=
  let scale : ℚ := ((10 ^ digits : Nat) : ℚ)
  let scaled : ℚ := qAdd (qMul (ratAbs q) scale) (mkRat 1 2)
  let n : Nat := scaled.num.toNat / scaled.den
  let base : Nat := 10 ^ digits
  let ip := n / base
  let fp := n % base
  let sign := if q < 0 then "-" else ""
  if digits = 0 then sign ++ toString ip
  else sign ++ toString ip ++ "." ++ padLeftZeros (toString fp) digits

/-- A thrown JavaScript exception, reduced to its `message`. -/
structure JsError where
  msg : String
deriving DecidableEq, Repr

/-- The result object returned by every handler operation and by the
dispatcher.  Optional fields of the JavaScript result literals are
modelled with defaults (`false` / `none`) when a literal omits them.
`C` is the type of the produced data-mutating command. -/
structure Result (C : Type) where
  success : Bool
  message : String
  needsMapClick : Bool := false
  needsConfirm : Bool := false
  command : Option C := none
  coordString : Option String := none
  updateInput : Bool := false
deriving Repr

namespace CommandHistory

/-- The state of a `CommandHistory` instance: the recorded commands, the
`currentIndex` cursor (an integer, `-1` when nothing is applied) and the
capacity bound. -/
structure State (C : Type) where
  history : List C
  currentIndex : Int
  maxHistorySize : Nat
deriving Repr

/-- The `CommandHistory` constructor (`maxHistorySize` defaults to 50). -/
def init (C : Type) (maxHistorySize : Nat := 50) : State C :=
  { history := [], currentIndex := -1, maxHistorySize := maxHistorySize }

/-- `CommandHistory.addCommand(command)`: truncate any undone tail past
the cursor, append, advance the cursor, then evict the oldest entry
(shifting the cursor down) if the capacity is exceeded. -/
def addCommand {C : Type} (h : State C) (command : C) : State C :=
  let h :=
    if h.currentIndex < (h.history.length : Int) - 1 then
      { h with history := h.history.take (h.currentIndex + 1).toNat }
    else h
  let h := { h with history := h.history ++ [command],
                    currentIndex := h.currentIndex + 1 }
  if (h.history.length : Int) > (h.maxHistorySize : Int) then
    { h with history := h.history.drop 1, currentIndex := h.currentIndex - 1 }
  else h

/-- `CommandHistory.undo()` over command semantics `cmdUndo` acting on a
shared store `S`: fail when the cursor is negative, otherwise call
`undo()` on the command under the cursor (updating the command object in
place) and decrement the cursor only on success.  The out-of-bounds
`none` branch is unreachable while the history invariant holds (the
JavaScript would fault on `undefined`). -/
def undo {C S : Type} (cmdUndo : C → S → Bool × C × S)
    (h : State C) (s : S) : Bool × State C × S :=
  if h.currentIndex < 0 then (false, h, s)
  else
    match h.history.get? h.currentIndex.toNat with
    | none => (false, h, s)
    | some command =>
      let (success, command', s') := cmdUndo command s
      let h' := { h with history := h.history.set h.currentIndex.toNat command' }
      if success then (true, { h' with currentIndex := h'.currentIndex - 1 }, s')
      else (false, h', s')

/-- `CommandHistory.redo()` over command semantics `cmdExec`: fail when
the cursor is already at the last entry, otherwise advance the cursor,
call `execute()` on the command there, and move the cursor back on
failure.  The out-of-bounds `none` branch is unreachable while the
history invariant holds. -/
def redo {C S : Type} (cmdExec : C → S → Bool × C × S)
    (h : State C) (s : S) : Bool × State C × S :=
  if h.currentIndex ≥ (h.history.length : Int) - 1 then (false, h, s)
  else
    let idx := h.currentIndex + 1
    match h.history.get? idx.toNat with
    | none => (false, h, s)
    | some command =>
      let (success, command', s') := cmdExec command s
      let h' := { h with history := h.history.set idx.toNat command',
                         currentIndex := if success then idx else idx - 1 }
      (success, h', s')

/-- `CommandHistory.clear()`. -/
def clear {C : Type} (h : State C) : State C :=
  { h with history := [], currentIndex := -1 }

/-- One call against a `CommandHistory` instance. -/
inductive Op (C : Type) where
  | add : C → Op C
  | undoOp : Op C
  | redoOp : Op C
  | clearOp : Op C

/-- Apply a sequence of `CommandHistory` calls (threading the shared
store through the commands' `execute`/`undo`). -/
def applyOps {C S : Type} (cmdExec cmdUndo : C → S → Bool × C × S) :
    List (Op C) → State C × S → State C × S
  | [], hs => hs
  | op :: rest, (h, s) =>
    let hs' :=
      match op with
      | .add c => (addCommand h c, s)
      | .undoOp => let (_, h', s') := undo cmdUndo h s; (h', s')
      | .redoOp => let (_, h', s') := redo cmdExec h s; (h', s')
      | .clearOp => (clear h, s)
    applyOps cmdExec cmdUndo rest hs'

/-- The `CommandHistory` representation invariant:
`-1 ≤ currentIndex ≤ history.length - 1` and the capacity bound. -/
def Inv {C : Type} (h : State C) : Prop :=
  -1 ≤ h.currentIndex ∧ h.currentIndex ≤ (h.history.length : Int) - 1 ∧
    h.history.length ≤ h.maxHistorySize

end CommandHistory

/-- `String.prototype.startsWith` (structural, over the character
lists). -/
def strStartsWith : List Char → List Char → Bool
  | _, [] => true
  | [], _ :: _ => false
  | c :: cs, p :: ps => c = p && strStartsWith cs ps

namespace CzmlModel

/-- The data of a CZML packet that the embedded code inspects: the
document header, a point (its `position.cartographicDegrees`) or a
polyline (its `polyline.positions.cartographicDegrees`, regrouped as a
coordinate list).  Style properties (color, pixelSize, width, material,
clampToGround) are constants in the source and are not modelled. -/
inductive EntityPayload where
  | document : EntityPayload
  | point : Coordinate → EntityPayload
  | polyline : List Coordinate → EntityPayload
deriving DecidableEq, Repr

/-- One CZML packet. -/
structure Entity where
  id : String
  name : String
  payload : EntityPayload
deriving DecidableEq, Repr

/-- The `CzmlModel` state: the packet list (headed by the `document`
packet) plus the counter driving the modelled compact-id generator. -/
structure State where
  czmlDocument : List Entity
  nextId : Nat
deriving DecidableEq, Repr

/-- The `CzmlModel` constructor: the document packet only. -/
def init : State :=
  { czmlDocument := [⟨"document", "CZML Editor", .document⟩], nextId := 1 }

/-- `CzmlModel.addPoint(coord)`: generate a compact point id and name,
push the packet, and return the new id. -/
def addPoint (m : State) (coord : Coordinate) : String × State :=
  let pointId := "PT_" ++ toString m.nextId
  let pointName := "Point-" ++ toString m.nextId
  (pointId,
   { m with czmlDocument := m.czmlDocument ++ [⟨pointId, pointName, .point coord⟩],
            nextId := m.nextId + 1 })

/-- `CzmlModel.addPolyline(coordinates)`: throws when fewer than 2
coordinates are supplied, otherwise pushes the polyline packet. -/
def addPolyline (m : State) (coordinates : List Coordinate) :
    Except JsError (String × State) :=
  if coordinates.length < 2 then .error ⟨"Polyline至少需要2个点"⟩
  else
    let polylineId := "PL_" ++ toString m.nextId
    let polylineName :=
      "Polyline-" ++ toString m.nextId ++ " (" ++ toString coordinates.length ++ " pts)"
    .ok (polylineId,
      { m with
        czmlDocument := m.czmlDocument ++ [⟨polylineId, polylineName, .polyline coordinates⟩],
        nextId := m.nextId + 1 })

/-- `CzmlModel.getEntityById(id)` (the `|| null` of the source is the
`none` case). -/
def getEntityById (m : State) (id : String) : Option Entity :=
  m.czmlDocument.find? (fun e => e.id = id)

/-- `CzmlModel.getAllPoints()`. -/
def getAllPoints (m : State) : List Entity :=
  m.czmlDocument.filter (fun e => strStartsWith e.id.data "PT_".data && e.id ≠ "document")

/-- `CzmlModel.getAllPolylines()`. -/
def getAllPolylines (m : State) : List Entity :=
  m.czmlDocument.filter (fun e => strStartsWith e.id.data "PL_".data && e.id ≠ "document")

/-- `CzmlModel.removeEntityById(id)`: splice out the entity, refusing
index 0 (the document packet) and missing ids. -/
def removeEntityById (m : State) (id : String) : Bool × State :=
  match m.czmlDocument.findIdx? (fun e => e.id = id) with
  | some index =>
    if 0 < index then
      (true, { m with czmlDocument :=
        m.czmlDocument.take index ++ m.czmlDocument.drop (index + 1) })
    else (false, m)
  | none => (false, m)

/-- `CzmlModel.clearAllGeometries()`: keep entities that are neither
points nor polylines (the document packet in particular). -/
def clearAllGeometries (m : State) : State :=
  { m with czmlDocument := m.czmlDocument.filter (fun e =>
      (!strStartsWith e.id.data "PT_".data && !strStartsWith e.id.data "PL_".data) || e.id = "document") }

/-- `CzmlModel.setPointPosition` as performed in place by
`EditPointCommand`: overwrite `position.cartographicDegrees` of the
entity with the given id. -/
def setPointPosition (m : State) (id : String) (coord : Coordinate) : State :=
  { m with czmlDocument := m.czmlDocument.map (fun e =>
      if e.id = id then
        match e.payload with
        | .point _ => { e with payload := .point coord }
        | p => { e with payload := p }
      else e) }

end CzmlModel

/-- The JavaScript ternary picking `distance.toFixed(2)` plus a unit when
`distance` is truthy and the unknown-distance text otherwise:
`null` and `0` are falsy. -/
def distanceTextJS (distance : Option ℚ) : String :=
  match distance with
  | some d => if d = 0 then "未知距离" else formatFixed 2 d ++ "m"
  | none => "未知距离"

namespace AddPointCommand

/-- The fields of an `AddPointCommand` instance (`name` is the constant
string AddPoint). -/
structure State where
  description : String
  executed : Bool
  coordinate : Coordinate
  pointId : Option String
  pointName : Option String
deriving Repr

/-- The `AddPointCommand` constructor. -/
def mk (coordinate : Coordinate) : State :=
  { description := "添加点 (" ++ formatFixed 3 coordinate.lon ++ ", "
      ++ formatFixed 3 coordinate.lat ++ ")",
    executed := false, coordinate := coordinate,
    pointId := none, pointName := none }

/-- `AddPointCommand.isValid()`. -/
def isValid (c : State) : Bool :=
  GeometryUtils.validateCoordinateQ c.coordinate

/-- `AddPointCommand.execute()`: refuse re-execution, throw-and-catch on
an invalid coordinate (returning `false` with no mutation), otherwise add
the point, record its id and generated name, and update the description. -/
def execute (c : State) (m : CzmlModel.State) : Bool × State × CzmlModel.State :=
  if c.executed then (false, c, m)
  else if !isValid c then (false, c, m)
  else
    let (pointId, m') := CzmlModel.addPoint m c.coordinate
    let pointName :=
      match CzmlModel.getEntityById m' pointId with
      | some e => e.name
      | none => "Point-" ++ pointId
    (true,
     { c with pointId := some pointId, pointName := some pointName,
              description := "添加点: " ++ pointName, executed := true },
     m')

/-- `AddPointCommand.undo()`: remove the entity created at execute time;
succeed only if the removal succeeded. -/
def undo (c : State) (m : CzmlModel.State) : Bool × State × CzmlModel.State :=
  if !c.executed then (false, c, m)
  else
    match c.pointId with
    | none => (false, c, m)
    | some pointId =>
      let (success, m') := CzmlModel.removeEntityById m pointId
      if success then (true, { c with executed := false }, m')
      else (false, c, m)

end AddPointCommand

namespace AddPolylineCommand

/-- The fields of an `AddPolylineCommand` instance. -/
structure State where
  description : String
  executed : Bool
  coordinates : List Coordinate
  polylineId : Option String
  polylineName : Option String
deriving Repr

/-- The `AddPolylineCommand` constructor (the coordinate array is
copied; lists are immutable here). -/
def mk (coordinates : List Coordinate) : State :=
  { description := "添加折线 (" ++ toString coordinates.length ++ " 个点)",
    executed := false, coordinates := coordinates,
    polylineId := none, polylineName := none }

/-- `AddPolylineCommand.isValid()`: at least 2 valid coordinates. -/
def isValid (c : State) : Bool :=
  GeometryUtils.validateCoordinates c.coordinates 2

/-- `AddPolylineCommand.execute()`: refuse re-execution, throw-and-catch
on invalid data (returning `false` with no mutation), otherwise add the
polyline packet and record its id and name.  A throw from
`czmlModel.addPolyline` is caught by the same handler (unreachable after
`isValid`). -/
def execute (c : State) (m : CzmlModel.State) : Bool × State × CzmlModel.State :=
  if c.executed then (false, c, m)
  else if !isValid c then (false, c, m)
  else
    match CzmlModel.addPolyline m c.coordinates with
    | .error _ => (false, c, m)
    | .ok (polylineId, m') =>
      let polylineName :=
        match CzmlModel.getEntityById m' polylineId with
        | some e => e.name
        | none => "Polyline-" ++ polylineId
      (true,
       { c with polylineId := some polylineId, polylineName := some polylineName,
                description := "添加折线: " ++ polylineName, executed := true },
       m')

/-- `AddPolylineCommand.undo()`. -/
def undo (c : State) (m : CzmlModel.State) : Bool × State × CzmlModel.State :=
  if !c.executed then (false, c, m)
  else
    match c.polylineId with
    | none => (false, c, m)
    | some polylineId =>
      let (success, m') := CzmlModel.removeEntityById m polylineId
      if success then (true, { c with executed := false }, m')
      else (false, c, m)

end AddPolylineCommand

namespace ClearCommand

/-- The fields of a `ClearCommand` instance; `backup` is the snapshot
taken at execute time (`null` before execution). -/
structure State where
  description : String
  executed : Bool
  backupPoints : Option (List CzmlModel.Entity)
  backupPolylines : Option (List CzmlModel.Entity)
  backupCount : Nat
deriving Repr

/-- The `ClearCommand` constructor. -/
def mk : State :=
  { description := "清除所有几何实体", executed := false,
    backupPoints := none, backupPolylines := none, backupCount := 0 }

/-- `ClearCommand.isValid()`: the captured `czmlModel` is never null in
the embedding. -/
def isValid (_ : State) : Bool := true

/-- `ClearCommand.execute()`: snapshot all points and polylines, clear
every geometry entity, and update the description with the count. -/
def execute (c : State) (m : CzmlModel.State) : Bool × State × CzmlModel.State :=
  if c.executed then (false, c, m)
  else
    let points := CzmlModel.getAllPoints m
    let polylines := CzmlModel.getAllPolylines m
    let count := points.length + polylines.length
    let m' := CzmlModel.clearAllGeometries m
    (true,
     { c with backupPoints := some points, backupPolylines := some polylines,
              backupCount := count, executed := true,
              description := "清除了 " ++ toString count ++ " 个几何实体" },
     m')

/-- `ClearCommand.undo()`: push every snapshotted entity back onto the
document. -/
def undo (c : State) (m : CzmlModel.State) : Bool × State × CzmlModel.State :=
  if !c.executed then (false, c, m)
  else
    match c.backupPoints, c.backupPolylines with
    | some points, some polylines =>
      (true,
       { c with executed := false },
       { m with czmlDocument := m.czmlDocument ++ points ++ polylines })
    | _, _ => (false, c, m)

end ClearCommand

namespace EditPointCommand

/-- The fields of an `EditPointCommand` instance. -/
structure State where
  description : String
  executed : Bool
  pointId : String
  oldCoordinate : Coordinate
  newCoordinate : Coordinate
  pointName : String
deriving Repr

/-- The constructor's `czmlModel.getEntityById(pointId)?.name || pointId`
(an entity with an empty name is falsy and falls back to the id). -/
def lookupName (m : CzmlModel.State) (pointId : String) : String :=
  match CzmlModel.getEntityById m pointId with
  | some e => if e.name = "" then pointId else e.name
  | none => pointId

/-- The `EditPointCommand` constructor (coordinates are copied). -/
def mk (m : CzmlModel.State) (pointId : String)
    (oldCoordinate newCoordinate : Coordinate) : State :=
  { description := "编辑点: " ++ lookupName m pointId,
    executed := false, pointId := pointId,
    oldCoordinate := oldCoordinate, newCoordinate := newCoordinate,
    pointName := lookupName m pointId }

/-- The same-position test of `EditPointCommand.isValid`: all three
deltas below the tolerances (1e-6 degrees for lon/lat, 1e-3 m for
height). -/
def isSamePosition (a b : Coordinate) : Bool :=
  decide (ratAbs (qSub a.lon b.lon) < mkRat 1 1000000) &&
  decide (ratAbs (qSub a.lat b.lat) < mkRat 1 1000000) &&
  decide (ratAbs (qSub a.height b.height) < mkRat 1 1000)

/-- `EditPointCommand.isValid()`: a truthy string id, two valid
coordinates, and a genuine position change. -/
def isValid (c : State) : Bool :=
  if c.pointId = "" then false
  else if !GeometryUtils.validateCoordinateQ c.oldCoordinate then false
  else if !GeometryUtils.validateCoordinateQ c.newCoordinate then false
  else if isSamePosition c.oldCoordinate c.newCoordinate then false
  else true

/-- `EditPointCommand.execute()` over the Cesium distance capability
`dist`: refuse re-execution, throw-and-catch on invalid data or a missing
target (returning `false` with no mutation), otherwise overwrite the
position of the target in place and update the description with the move
distance. -/
def execute (dist : Coordinate → Coordinate → Option ℚ)
    (c : State) (m : CzmlModel.State) : Bool × State × CzmlModel.State :=
  if c.executed then (false, c, m)
  else if !isValid c then (false, c, m)
  else
    match CzmlModel.getEntityById m c.pointId with
    | none => (false, c, m)
    | some _ =>
      let m' := CzmlModel.setPointPosition m c.pointId c.newCoordinate
      let distance := GeometryUtils.calculateDistance dist c.oldCoordinate c.newCoordinate
      (true,
       { c with executed := true,
                description := "编辑点: " ++ c.pointName ++ " (移动 "
                  ++ distanceTextJS distance ++ ")" },
       m')

/-- `EditPointCommand.undo()`: re-fetch the target by id and restore the
old coordinate. -/
def undo (c : State) (m : CzmlModel.State) : Bool × State × CzmlModel.State :=
  if !c.executed then (false, c, m)
  else
    match CzmlModel.getEntityById m c.pointId with
    | none => (false, c, m)
    | some _ =>
      (true, { c with executed := false },
       CzmlModel.setPointPosition m c.pointId c.oldCoordinate)

end EditPointCommand

/-- The sum of the embedded reversible commands (the dynamic `Command`
subclasses that can be pushed onto `CommandHistory`). -/
inductive RealCmd where
  | addPointCmd : AddPointCommand.State → RealCmd
  | addPolylineCmd : AddPolylineCommand.State → RealCmd
  | clearCmd : ClearCommand.State → RealCmd
  | editCmd : EditPointCommand.State → RealCmd
deriving Repr

namespace RealCmd

/-- Dynamic dispatch of `isValid()`. -/
def isValid : RealCmd → Bool
  | .addPointCmd c => AddPointCommand.isValid c
  | .addPolylineCmd c => AddPolylineCommand.isValid c
  | .clearCmd c => ClearCommand.isValid c
  | .editCmd c => EditPointCommand.isValid c

/-- Dynamic dispatch of `execute()` (threading the Cesium distance
capability needed by `EditPointCommand`). -/
def execute (dist : Coordinate → Coordinate → Option ℚ) :
    RealCmd → CzmlModel.State → Bool × RealCmd × CzmlModel.State
  | .addPointCmd c, m =>
    let (b, c', m') := AddPointCommand.execute c m; (b, .addPointCmd c', m')
  | .addPolylineCmd c, m =>
    let (b, c', m') := AddPolylineCommand.execute c m; (b, .addPolylineCmd c', m')
  | .clearCmd c, m =>
    let (b, c', m') := ClearCommand.execute c m; (b, .clearCmd c', m')
  | .editCmd c, m =>
    let (b, c', m') := EditPointCommand.execute dist c m; (b, .editCmd c', m')

/-- Dynamic dispatch of `undo()`. -/
def undo : RealCmd → CzmlModel.State → Bool × RealCmd × CzmlModel.State
  | .addPointCmd c, m =>
    let (b, c', m') := AddPointCommand.undo c m; (b, .addPointCmd c', m')
  | .addPolylineCmd c, m =>
    let (b, c', m') := AddPolylineCommand.undo c m; (b, .addPolylineCmd c', m')
  | .clearCmd c, m =>
    let (b, c', m') := ClearCommand.undo c m; (b, .clearCmd c', m')
  | .editCmd c, m =>
    let (b, c', m') := EditPointCommand.undo c m; (b, .editCmd c', m')

/-- Dynamic dispatch of `getDescription()`. -/
def getDescription : RealCmd → String
  | .addPointCmd c => c.description
  | .addPolylineCmd c => c.description
  | .clearCmd c => c.description
  | .editCmd c => c.description

end RealCmd

/-- The optional map-view capabilities a caller-supplied context may
expose (duck-typed in the source: each call site probes for the method
before calling it).  Each capability is an effect that either returns or
throws. -/
structure MapViewCaps where
  hideTemporaryPoint : Option (Except JsError Unit) := none
  hideTemporaryPolyline : Option (Except JsError Unit) := none
  showTemporaryPoint : Option (Coordinate → Except JsError Unit) := none
  updateTemporaryPolyline : Option (List Coordinate → Except JsError Unit) := none
  highlightSelectablePoints : Option (Bool → Except JsError Unit) := none
  highlightSpecificPoint : Option (String → Bool → Except JsError Unit) := none
  disableEntitySelection : Option (Except JsError Unit) := none
  disableMapClick : Option (Except JsError Unit) := none
  disableRightClickConfirm : Option (Except JsError Unit) := none

/-- The shared mutable context threaded through dispatcher and handlers:
the geometry store (`context.czmlModel`), the dispatcher-owned
`CommandHistory` (exposed to handlers via `enhancedContext`), the
optional `context.mapView`, and the Cesium distance capability. -/
structure RealCtx where
  czml : CzmlModel.State
  history : CommandHistory.State RealCmd
  mapView : Option MapViewCaps := none
  cesiumDistance : Coordinate → Coordinate → Option ℚ := fun _ _ => none

/-- Run a guarded capability call
`if (context.mapView && context.mapView.cap) context.mapView.cap()`. -/
def runGuardedCap (mapView : Option MapViewCaps)
    (get : MapViewCaps → Option (Except JsError Unit)) : Except JsError Unit :=
  match mapView with
  | some mv =>
    match get mv with
    | some eff => eff
    | none => .ok ()
  | none => .ok ()

namespace CommandBase

/-- The `ConfirmationState` enum of `CommandBase.js`. -/
inductive ConfirmationState where
  | NONE : ConfirmationState
  | WAITING_INPUT : ConfirmationState
  | WAITING_CONFIRM : ConfirmationState
deriving DecidableEq, Repr

/-- The `ConfirmationMethod` enum of `CommandBase.js`. -/
inductive ConfirmationMethod where
  | ENTER_ONLY : ConfirmationMethod
  | RIGHT_CLICK_ONLY : ConfirmationMethod
  | BOTH : ConfirmationMethod
deriving DecidableEq, Repr

/-- The fields that the `CommandHandler` base-class constructor
initialises; `D` is the handler-specific type of `pendingData` and `C`
the command type carried by results. -/
structure HandlerCore (D C : Type) where
  completed : Bool := false
  cancelled : Bool := false
  result : Option (Result C) := none
  waitingForMapClick : Bool := false
  collectingData : Bool := true
  confirmationState : ConfirmationState := .NONE
  confirmationMethod : ConfirmationMethod := .BOTH
  pendingData : Option D := none
  confirmationMessage : String := ""
deriving Repr

/-- The part of a `CommandHandler` subclass that `executeConfirmation`
dispatches to: accessors for the base fields plus the overridable
`onConfirm` hook. -/
structure ConfirmOps (S D C Ctx : Type) where
  commandName : String
  getCore : S → HandlerCore D C
  modifyCore : S → (HandlerCore D C → HandlerCore D C) → S
  onConfirm : S → Ctx → String → D → Except JsError (S × Ctx × Result C)

/-- The template-method hooks a `CommandHandler` subclass supplies to the
base class's input routing: `ConfirmOps` plus the overridable
`handleSpecificInput` / `handleConfirmationInput` /
`handleSpecificRightClick` methods. -/
structure SubclassOps (S D C Ctx : Type) extends ConfirmOps S D C Ctx where
  handleSpecificInput : S → Ctx → String → Except JsError (S × Ctx × Result C)
  handleConfirmationInput : S → Ctx → String → Except JsError (S × Ctx × Result C)
  handleSpecificRightClick : S → Ctx → Except JsError (S × Ctx × Result C)

/-- `CommandHandler.clearConfirmationState()`. -/
def clearConfirmationState {D C : Type} (core : HandlerCore D C) : HandlerCore D C :=
  { core with confirmationState := .NONE, confirmationMethod := .BOTH,
              pendingData := none, confirmationMessage := "" }

/-- `CommandHandler.setConfirmationState(config)` with every config field
supplied (as at all call sites). -/
def setConfirmationState {D C : Type} (core : HandlerCore D C)
    (state : ConfirmationState) (method : ConfirmationMethod)
    (data : Option D) (message : String) : HandlerCore D C :=
  { core with confirmationState := state, confirmationMethod := method,
              pendingData := data, confirmationMessage := message }

/-- `CommandHandler.executeConfirmation(method)`: fail (caught locally)
without pending data; otherwise run the subclass `onConfirm` on the
pending payload, catching its exceptions, and clear the confirmation
state only on success. -/
def executeConfirmation {S D C Ctx : Type} (ops : ConfirmOps S D C Ctx)
    (s : S) (ctx : Ctx) (method : String) : Except JsError (S × Ctx × Result C) :=
  match (ops.getCore s).pendingData with
  | none => .ok (s, ctx, { success := false, message := "确认失败: 没有待确认的数据" })
  | some data =>
    match ops.onConfirm s ctx method data with
    | .error e => .ok (s, ctx, { success := false, message := "确认失败: " ++ e.msg })
    | .ok (s', ctx', r) =>
      if r.success then .ok (ops.modifyCore s' clearConfirmationState, ctx', r)
      else .ok (s', ctx', r)

/-- `CommandHandler.handleInput(input)`: in `WAITING_CONFIRM`, empty
trimmed input confirms via Enter and non-empty input goes to the
subclass confirmation-input handler; otherwise the subclass fresh-input
handler runs. -/
def handleInput {S D C Ctx : Type} (ops : SubclassOps S D C Ctx)
    (s : S) (ctx : Ctx) (input : String) : Except JsError (S × Ctx × Result C) :=
  let trimmedInput := jsTrim input
  if (ops.getCore s).confirmationState = .WAITING_CONFIRM then
    if trimmedInput = "" then executeConfirmation ops.toConfirmOps s ctx "enter"
    else ops.handleConfirmationInput s ctx trimmedInput
  else ops.handleSpecificInput s ctx trimmedInput

/-- `CommandHandler.handleRightClickConfirm()`: in `WAITING_CONFIRM`,
reject when only Enter is allowed, else confirm via right-click;
otherwise delegate to the subclass right-click handler. -/
def handleRightClickConfirm {S D C Ctx : Type} (ops : SubclassOps S D C Ctx)
    (s : S) (ctx : Ctx) : Except JsError (S × Ctx × Result C) :=
  if (ops.getCore s).confirmationState = .WAITING_CONFIRM then
    if (ops.getCore s).confirmationMethod = .ENTER_ONLY then
      .ok (s, ctx, { success := false,
                     message := "当前状态只支持回车确认，不支持右键确认" })
    else executeConfirmation ops.toConfirmOps s ctx "right_click"
  else ops.handleSpecificRightClick s ctx

/-- `CommandHandler.isCompleted()`. -/
def isCompleted {D C : Type} (core : HandlerCore D C) : Bool :=
  core.completed || core.cancelled

/-- `CommandHandler.getResult()`. -/
def getResult {D C : Type} (core : HandlerCore D C) : Result C :=
  core.result.getD { success := false, message := "命令未完成" }

/-- What `CommandHandler.finish` needs from the subclass and the command
class: the `createCommand` factory (`none` models a `null` command, as
returned by Help), the command's `isValid`/`execute`/`getDescription`,
the `addToHistory` sink (`context.commandHistory.addCommand`), and the
`onFinish` cleanup hook. -/
structure FinishOps (S D C Ctx : Type) where
  commandName : String
  modifyCore : S → (HandlerCore D C → HandlerCore D C) → S
  createCommand : S → Ctx → D → Option C
  cmdIsValid : C → Bool
  cmdExecute : C → Ctx → Bool × C × Ctx
  cmdDescription : C → String
  addToHistory : C → Ctx → Ctx
  onFinish : S → Ctx → Except JsError (S × Ctx)

/-- The catch branch of `CommandHandler.finish`: the handler session
terminates (completed, flags cleared), `this.result` is the failure
result, and the `onFinish` hook still runs. -/
def finishFailure {S D C Ctx : Type} (fo : FinishOps S D C Ctx)
    (s : S) (ctx : Ctx) (errMsg : String) : Except JsError (S × Ctx × Result C) :=
  let r : Result C :=
    { success := false, message := fo.commandName ++ " 执行失败: " ++ errMsg }
  let s' := fo.modifyCore s (fun core =>
    clearConfirmationState { core with completed := true, collectingData := false,
                                       waitingForMapClick := false, result := some r })
  match fo.onFinish s' ctx with
  | .error e => .error e
  | .ok (s'', ctx') => .ok (s'', ctx', r)

/-- `CommandHandler.finish(data)`: build the command, validate it,
execute it; push it to the history sink and report success with the
produced command, or terminate the session with a failure result.  The
session terminates either way. -/
def finish {S D C Ctx : Type} (fo : FinishOps S D C Ctx)
    (s : S) (ctx : Ctx) (data : D) : Except JsError (S × Ctx × Result C) :=
  match fo.createCommand s ctx data with
  | none => finishFailure fo s ctx "创建的命令无效"
  | some command =>
    if !fo.cmdIsValid command then finishFailure fo s ctx "创建的命令无效"
    else
      let (success, command', ctx') := fo.cmdExecute command ctx
      if success then
        let ctx'' := fo.addToHistory command' ctx'
        let r : Result C :=
          { success := true,
            message := fo.commandName ++ " 执行成功: " ++ fo.cmdDescription command',
            command := some command' }
        let s' := fo.modifyCore s (fun core =>
          clearConfirmationState { core with completed := true, collectingData := false,
                                             waitingForMapClick := false, result := some r })
        match fo.onFinish s' ctx'' with
        | .error e => .error e
        | .ok (s'', ctx''') => .ok (s'', ctx''', r)
      else finishFailure fo s ctx' "命令执行失败"

end CommandBase

/-- Execute a command against the shared context (the mutations hit
`context.czmlModel`; `EditPointCommand` also reads the Cesium distance
capability). -/
def realCmdExecute (c : RealCmd) (ctx : RealCtx) : Bool × RealCmd × RealCtx :=
  let (b, c', m') := RealCmd.execute ctx.cesiumDistance c ctx.czml
  (b, c', { ctx with czml := m' })

/-- `CommandHandler.addToHistory(command)`: `context.commandHistory` is
always present in the dispatcher-built `enhancedContext`, so the guard
always passes and the command is pushed. -/
def realAddToHistory (c : RealCmd) (ctx : RealCtx) : RealCtx :=
  { ctx with history := CommandHistory.addCommand ctx.history c }

namespace AddPointCommandHandler

/-- The state of the registered `AddPointCommandHandler`
(`AddPointCommand.js`): the base fields plus `currentCoord`.  This
iteration overrides `handleInput` wholesale and does not use the
base-class confirmation machinery. -/
structure State where
  core : CommandBase.HandlerCore Coordinate RealCmd := {}
  currentCoord : Option Coordinate := none
deriving Repr

/-- The constructor (`new AddPointCommandHandler(context)`). -/
def mk : State := {}

/-- `onFinish`: hide the temporary preview point when the context
exposes the capability. -/
def onFinish (s : State) (ctx : RealCtx) : Except JsError (State × RealCtx) :=
  match runGuardedCap ctx.mapView (fun mv => mv.hideTemporaryPoint) with
  | .error e => .error e
  | .ok _ => .ok (s, ctx)

/-- The pieces of `CommandHandler.finish` supplied by this subclass:
`createCommand` builds an `AddPointCommand` from the coordinate. -/
def finishOps : CommandBase.FinishOps State Coordinate RealCmd RealCtx :=
  { commandName := "AddPoint",
    modifyCore := fun s f => { s with core := f s.core },
    createCommand := fun _ _ coordinate =>
      some (.addPointCmd (AddPointCommand.mk coordinate)),
    cmdIsValid := RealCmd.isValid,
    cmdExecute := realCmdExecute,
    cmdDescription := RealCmd.getDescription,
    addToHistory := realAddToHistory,
    onFinish := onFinish }

/-- `AddPointCommandHandler.start()`: wait for a map click and prompt. -/
def start (s : State) : State × Result RealCmd :=
  let r : Result RealCmd :=
    { success := true,
      message := "请点击地图选择位置，或直接输入坐标 (lon,lat,height)",
      needsMapClick := true, needsConfirm := false }
  ({ s with core := { s.core with waitingForMapClick := true, result := some r } }, r)

/-- `AddPointCommandHandler.handleInput(input)`: coordinate text finishes
immediately with the parsed coordinate; empty input confirms a
previously clicked coordinate; anything else is rejected. -/
def handleInput (s : State) (ctx : RealCtx) (input : String) :
    Except JsError (State × RealCtx × Result RealCmd) :=
  let trimmed := jsTrim input
  if GeometryUtils.isCoordinateInput trimmed then
    match GeometryUtils.parseCoordinate trimmed with
    | some coord => CommandBase.finish finishOps s ctx coord
    | none =>
      .ok (s, ctx, { success := false, message := "坐标格式错误，请使用: lon,lat,height" })
  else
    match s.currentCoord with
    | some coord =>
      if trimmed = "" then CommandBase.finish finishOps s ctx coord
      else .ok (s, ctx, { success := false, message := "请先点击地图选择位置或输入坐标" })
    | none =>
      .ok (s, ctx, { success := false, message := "请先点击地图选择位置或输入坐标" })

/-- `AddPointCommandHandler.handleMapClick(coord)`: record the clicked
coordinate and ask for confirmation (the context is untouched). -/
def handleMapClick (s : State) (coord : Coordinate) : State × Result RealCmd :=
  if !s.core.waitingForMapClick then
    (s, { success := false, message := "当前不接受地图点击" })
  else
    ({ s with currentCoord := some coord },
     { success := true,
       message := "已选择位置: " ++ formatFixed 6 coord.lon ++ ", "
         ++ formatFixed 6 coord.lat ++ ", " ++ formatFixed 2 coord.height
         ++ "m (按回车确认或右键确认)",
       coordString := some (formatFixed 6 coord.lon ++ "," ++ formatFixed 6 coord.lat
         ++ "," ++ formatFixed 2 coord.height),
       needsConfirm := true, updateInput := true, needsMapClick := true })

end AddPointCommandHandler

/-- Run a guarded capability call taking an argument
(`if (context.mapView && context.mapView.cap) context.mapView.cap(arg)`). -/
def runGuardedCapArg {α : Type} (mapView : Option MapViewCaps)
    (get : MapViewCaps → Option (α → Except JsError Unit)) (a : α) :
    Except JsError Unit :=
  match mapView with
  | some mv =>
    match get mv with
    | some eff => eff a
    | none => .ok ()
  | none => .ok ()

namespace AddPolylineCommandHandler

/-- The state of `AddPolylineCommandHandler` (`AddPolylineCommand.js`):
the base fields plus the collected vertex list and the
ready-to-finish flag. -/
structure State where
  core : CommandBase.HandlerCore (List Coordinate) RealCmd := {}
  coordinates : List Coordinate := []
  isReadyToFinish : Bool := false
deriving Repr

/-- The constructor. -/
def mk : State := {}

/-- `onFinish`: hide the temporary polyline preview when available and
reset the collected state. -/
def onFinish (s : State) (ctx : RealCtx) : Except JsError (State × RealCtx) :=
  match runGuardedCap ctx.mapView (fun mv => mv.hideTemporaryPolyline) with
  | .error e => .error e
  | .ok _ => .ok ({ s with coordinates := [], isReadyToFinish := false }, ctx)

/-- The pieces of `CommandHandler.finish` supplied by this subclass. -/
def finishOps : CommandBase.FinishOps State (List Coordinate) RealCmd RealCtx :=
  { commandName := "AddPolyline",
    modifyCore := fun s f => { s with core := f s.core },
    createCommand := fun _ _ coordinates =>
      some (.addPolylineCmd (AddPolylineCommand.mk coordinates)),
    cmdIsValid := RealCmd.isValid,
    cmdExecute := realCmdExecute,
    cmdDescription := RealCmd.getDescription,
    addToHistory := realAddToHistory,
    onFinish := onFinish }

/-- `AddPolylineCommandHandler.onConfirm(method, data)`: re-validate the
vertex list (≥ 2 valid points) and finish. -/
def onConfirm (s : State) (ctx : RealCtx) (_method : String)
    (data : List Coordinate) : Except JsError (State × RealCtx × Result RealCmd) :=
  if !GeometryUtils.validateCoordinates data 2 then
    .ok (s, ctx, { success := false,
                   message := "确认的折线数据无效，至少需要2个有效坐标点" })
  else CommandBase.finish finishOps s ctx data

/-- The `ConfirmOps` view of this subclass. -/
def confirmOps : CommandBase.ConfirmOps State (List Coordinate) RealCmd RealCtx :=
  { commandName := "AddPolyline",
    getCore := fun s => s.core,
    modifyCore := fun s f => { s with core := f s.core },
    onConfirm := onConfirm }

/-- `AddPolylineCommandHandler.addCoordinatePoint(coord)`: validate,
append the vertex, refresh the preview (a capability call that may
throw), and report the new count. -/
def addCoordinatePoint (s : State) (ctx : RealCtx) (coord : Coordinate) :
    Except JsError (State × RealCtx × Result RealCmd) :=
  if !GeometryUtils.validateCoordinateQ coord then
    .ok (s, ctx, { success := false, message := "坐标无效，请重新选择" })
  else
    let s' := { s with coordinates := s.coordinates ++ [coord] }
    match runGuardedCapArg ctx.mapView (fun mv => mv.updateTemporaryPolyline)
        s'.coordinates with
    | .error e => .error e
    | .ok _ =>
      let pointCount := s'.coordinates.length
      let message := "已添加第" ++ toString pointCount ++ "个点: "
        ++ formatFixed 6 coord.lon ++ ", " ++ formatFixed 6 coord.lat ++ ", "
        ++ formatFixed 2 coord.height ++ "m"
      let message :=
        if pointCount = 1 then message ++ " (继续点击添加点，至少需要2个点)"
        else if 2 ≤ pointCount then message ++ " (可按回车或右键完成，或继续添加点)"
        else message
      .ok (s', ctx, { success := true, message := message,
                      needsMapClick := true, needsConfirm := false })

/-- `AddPolylineCommandHandler.prepareToFinish()`: with ≥ 2 vertices,
enter `WAITING_CONFIRM` (method BOTH, pending payload = the vertex list)
and report a confirm prompt carrying the length when available. -/
def prepareToFinish (s : State) (ctx : RealCtx) :
    State × RealCtx × Result RealCmd :=
  if s.coordinates.length < 2 then
    (s, ctx, { success := false,
               message := "折线至少需要2个点，当前只有"
                 ++ toString s.coordinates.length ++ "个点" })
  else
    let s' := { s with isReadyToFinish := true,
                       core := CommandBase.setConfirmationState s.core
                         .WAITING_CONFIRM .BOTH (some s.coordinates)
                         ("确认完成折线绘制 (" ++ toString s.coordinates.length
                           ++ " 个点)") }
    let length := GeometryUtils.calculatePolylineLength ctx.cesiumDistance
      s'.coordinates
    let lengthText :=
      match length with
      | some l => if l = 0 then "" else "总长度: " ++ formatFixed 2 l ++ "m"
      | none => ""
    (s', ctx,
     { success := true,
       message := "准备完成折线绘制: " ++ toString s'.coordinates.length
         ++ " 个点 " ++ lengthText,
       needsMapClick := true, needsConfirm := true })

/-- `AddPolylineCommandHandler.handleSpecificInput(input)`. -/
def handleSpecificInput (s : State) (ctx : RealCtx) (input : String) :
    Except JsError (State × RealCtx × Result RealCmd) :=
  if GeometryUtils.isCoordinateInput input then
    match GeometryUtils.parseCoordinate input with
    | some coord => addCoordinatePoint s ctx coord
    | none =>
      .ok (s, ctx, { success := false, message := "坐标格式错误，请使用: lon,lat,height" })
  else if jsTrim input = "" then
    if 2 ≤ s.coordinates.length then .ok (prepareToFinish s ctx)
    else
      .ok (s, ctx, { success := false,
                     message := "折线至少需要2个点，当前只有"
                       ++ toString s.coordinates.length ++ "个点" })
  else
    .ok (s, ctx, { success := false,
                   message := "请继续点击地图添加点 (当前"
                     ++ toString s.coordinates.length ++ "个点)，或按回车完成绘制" })

/-- `AddPolylineCommandHandler.handleConfirmationInput(input)`. -/
def handleConfirmationInput (s : State) (ctx : RealCtx) (input : String) :
    Except JsError (State × RealCtx × Result RealCmd) :=
  if s.isReadyToFinish && jsTrim input = "" then
    CommandBase.executeConfirmation confirmOps s ctx "enter"
  else if GeometryUtils.isCoordinateInput input then
    match GeometryUtils.parseCoordinate input with
    | some coord =>
      let s' := { s with core := CommandBase.clearConfirmationState s.core,
                         isReadyToFinish := false }
      addCoordinatePoint s' ctx coord
    | none =>
      .ok (s, ctx, { success := false, message := "坐标格式错误，请使用: lon,lat,height" })
  else
    .ok (s, ctx, { success := false,
                   message := "请按回车确认完成折线，或输入新坐标继续添加点" })

/-- `AddPolylineCommandHandler.handleSpecificRightClick()`: with ≥ 2
vertices a right-click proposes finishing. -/
def handleSpecificRightClick (s : State) (ctx : RealCtx) :
    Except JsError (State × RealCtx × Result RealCmd) :=
  if 2 ≤ s.coordinates.length then .ok (prepareToFinish s ctx)
  else
    .ok (s, ctx, { success := false,
                   message := "折线至少需要2个点，当前只有"
                     ++ toString s.coordinates.length ++ "个点" })

/-- The full subclass hook record for the base-class input routing. -/
def subOps : CommandBase.SubclassOps State (List Coordinate) RealCmd RealCtx :=
  { toConfirmOps := confirmOps,
    handleSpecificInput := handleSpecificInput,
    handleConfirmationInput := handleConfirmationInput,
    handleSpecificRightClick := handleSpecificRightClick }

/-- `AddPolylineCommandHandler.start()`. -/
def start (s : State) : State × Result RealCmd :=
  let r : Result RealCmd :=
    { success := true, message := "开始绘制折线：点击地图添加点 (至少需要2个点)",
      needsMapClick := true, needsConfirm := false }
  ({ s with core := { s.core with waitingForMapClick := true, result := some r } }, r)

/-- `AddPolylineCommandHandler.handleMapClick(coord)`: clear any pending
confirmation and append the vertex. -/
def handleMapClick (s : State) (ctx : RealCtx) (coord : Coordinate) :
    Except JsError (State × RealCtx × Result RealCmd) :=
  if !s.core.waitingForMapClick then
    .ok (s, ctx, { success := false, message := "当前不接受地图点击" })
  else
    let s' :=
      if s.core.confirmationState = .WAITING_CONFIRM then
        { s with core := CommandBase.clearConfirmationState s.core,
                 isReadyToFinish := false }
      else s
    addCoordinatePoint s' ctx coord

end AddPolylineCommandHandler

namespace ClearCommandHandler

/-- The state of `ClearCommandHandler` (`UtilityCommands.js`): only the
base fields (no interaction). -/
structure State where
  core : CommandBase.HandlerCore Unit RealCmd := {}
deriving Repr

/-- The constructor. -/
def mk : State := {}

/-- The pieces of `CommandHandler.finish` supplied by this subclass
(`createCommand` ignores its data; `onFinish` is the base no-op). -/
def finishOps : CommandBase.FinishOps State Unit RealCmd RealCtx :=
  { commandName := "Clear",
    modifyCore := fun s f => { s with core := f s.core },
    createCommand := fun _ _ _ => some (.clearCmd ClearCommand.mk),
    cmdIsValid := RealCmd.isValid,
    cmdExecute := realCmdExecute,
    cmdDescription := RealCmd.getDescription,
    addToHistory := realAddToHistory,
    onFinish := fun s ctx => .ok (s, ctx) }

/-- `ClearCommandHandler.start()`: when a `mapView` is present the
preview-hiding methods are called unguarded (a missing method would be a
TypeError), then the clear is finished immediately. -/
def start (s : State) (ctx : RealCtx) :
    Except JsError (State × RealCtx × Result RealCmd) :=
  let proceed : Except JsError Unit :=
    match ctx.mapView with
    | some mv =>
      match mv.hideTemporaryPoint with
      | none => .error ⟨"this.context.mapView.hideTemporaryPoint is not a function"⟩
      | some eff =>
        match eff with
        | .error e => .error e
        | .ok _ =>
          match mv.hideTemporaryPolyline with
          | none =>
            .error ⟨"this.context.mapView.hideTemporaryPolyline is not a function"⟩
          | some eff2 => eff2
    | none => .ok ()
  match proceed with
  | .error e => .error e
  | .ok _ => CommandBase.finish finishOps s ctx ()

end ClearCommandHandler

namespace HelpCommandHandler

/-- The state of `HelpCommandHandler`: the base fields plus the command
registry captured at construction, reduced to the (name, description)
pairs the help text reads. -/
structure State where
  core : CommandBase.HandlerCore Unit RealCmd := {}
  commandRegistry : List (String × String) := []
deriving Repr

/-- The constructor (the registry is handed over by the factory from
`context.commandRegistry`). -/
def mk (commandRegistry : List (String × String)) : State :=
  { commandRegistry := commandRegistry }

/-- The help text assembled by `HelpCommandHandler.start()`. -/
def helpText (commandRegistry : List (String × String)) : String :=
  "🌍 CZML编辑器 v3.0 - 紧凑ID系统\n\n"
  ++ "可用命令:\n"
  ++ String.join (commandRegistry.map (fun nd =>
       "  " ++ nd.1 ++ ": " ++ nd.2 ++ "\n"))
  ++ "\n新特性:\n"
  ++ "✨ 紧凑ID格式: PT_xxxxxxxx (点), PL_xxxxxxxx (线)\n"
  ++ "✨ 智能命名: Point-xxxxxxxx, Polyline-xxxxxxxx (N pts)\n"
  ++ "✨ 节省空间: ID长度减少69%\n"
  ++ "✨ 完全唯一: 基于时间戳+随机数\n"
  ++ "\n快捷键:\n"
  ++ "• Enter: 执行命令/确认操作\n"
  ++ "• Esc: 取消当前命令\n"
  ++ "• ↑/↓: 浏览输入历史\n"
  ++ "• 左键: 选择位置/添加点\n"
  ++ "• 右键: 确认操作/完成绘制\n"
  ++ "• Ctrl+Z: 撤销上一个操作\n"
  ++ "• Ctrl+Y: 重做下一个操作\n"
  ++ "• Ctrl+H: 显示命令历史\n"
  ++ "\n调试命令:\n"
  ++ "• window.czmlEditor.getStats() - 获取统计信息\n"
  ++ "• window.czmlEditor.getCzmlData() - 获取CZML数据\n"
  ++ "• window.czmlEditor.controller.czmlModel.validateIds() - 验证ID格式\n"
  ++ "• window.czmlEditor.controller.czmlModel.migrateToCompactIds() - 迁移旧数据\n"

/-- `HelpCommandHandler.start()`: compose the text and complete at once,
producing no command. -/
def start (s : State) : State × Result RealCmd :=
  let r : Result RealCmd :=
    { success := true, message := helpText s.commandRegistry,
      needsMapClick := false, needsConfirm := false }
  ({ s with core := { s.core with completed := true, result := some r } }, r)

end HelpCommandHandler

/-- The sum of the handler classes the built-in registry can
instantiate. -/
inductive RealHandler where
  | addPointH : AddPointCommandHandler.State → RealHandler
  | addPolylineH : AddPolylineCommandHandler.State → RealHandler
  | clearH : ClearCommandHandler.State → RealHandler
  | helpH : HelpCommandHandler.State → RealHandler
deriving Repr

namespace CommandSystem

/-- The dynamic handler interface the dispatcher uses: the methods it
calls on `this.currentHandler`, the history sink, and the registered
factories (keyed by lowercased command name, in registration order). -/
structure HandlerOps (H C Ctx : Type) where
  isCompleted : H → Bool
  isWaitingForMapClick : H → Bool
  start : H → Ctx → Except JsError (H × Ctx × Result C)
  handleInput : H → Ctx → String → Except JsError (H × Ctx × Result C)
  handleMapClick : H → Ctx → Coordinate → Except JsError (H × Ctx × Result C)
  histAdd : C → Ctx → Ctx
  factories : List (String × (Ctx → Except JsError H))

/-- The `CommandSystem` state: the active handler, the raw input
history, and the shared context (store + command history), which the
source reaches through `context`/`enhancedContext` and through
`this.commandHistory` (the same objects). -/
structure State (H Ctx : Type) where
  currentHandler : Option H := none
  inputHistory : List String := []
  ctx : Ctx

/-- `parts[0]` of `trimmed.split(/\s+/)` for nonempty trimmed input. -/
def firstToken (s : String) : String :=
  String.mk (s.data.takeWhile (fun c => !c.isWhitespace))

/-- The input-history bookkeeping of `parseAndExecute`: skip a repeat of
the last entry, append, and cap the length at 100. -/
def pushInputHistory (inputHistory : List String) (trimmed : String) : List String :=
  let repeatsLast :=
    match inputHistory.getLast? with
    | some l => trimmed == l
    | none => false
  if repeatsLast then inputHistory
  else
    let ih := inputHistory ++ [trimmed]
    if 100 < ih.length then ih.drop 1 else ih

/-- The completed-handler bookkeeping shared by `parseAndExecute` and
`handleMapClick`: when the handler reports completed, push the produced
command (if the result was successful and carries one) onto the command
history and drop the handler. -/
def finishActive {H C Ctx : Type} (ops : HandlerOps H C Ctx)
    (sys : State H Ctx) (h' : H) (ctx' : Ctx) (r : Result C)
    (inputHistory : List String) : State H Ctx × Result C :=
  if ops.isCompleted h' then
    let ctx'' :=
      if r.success then
        match r.command with
        | some c => ops.histAdd c ctx'
        | none => ctx'
      else ctx'
    ({ sys with currentHandler := none, inputHistory := inputHistory, ctx := ctx'' }, r)
  else
    ({ sys with currentHandler := some h', inputHistory := inputHistory, ctx := ctx' }, r)

/-- The new-command path of `parseAndExecute`: look up the factory by
lowercased first token; create the handler and call `start()` inside the
try/catch, converting a thrown exception into a failure result and a
discarded handler. -/
def startNewCommand {H C Ctx : Type} (ops : HandlerOps H C Ctx)
    (sys : State H Ctx) (trimmed : String) : State H Ctx × Result C :=
  let commandName := String.mk ((firstToken trimmed).data.map Char.toLower)
  match ops.factories.lookup commandName with
  | none =>
    (sys, { success := false,
            message := "未知命令: " ++ commandName ++ "。输入 Help 查看可用命令。" })
  | some factory =>
    match factory sys.ctx with
    | .error e =>
      ({ sys with currentHandler := none },
       { success := false, message := "命令执行失败: " ++ e.msg })
    | .ok h0 =>
      let ih := pushInputHistory sys.inputHistory trimmed
      match ops.start h0 sys.ctx with
      | .error e =>
        ({ sys with currentHandler := none, inputHistory := ih },
         { success := false, message := "命令执行失败: " ++ e.msg })
      | .ok (h', ctx', r) => finishActive ops sys h' ctx' r ih

/-- `CommandSystem.parseAndExecute(input, context)`: empty input with no
handler is an idle failure; input is forwarded to an active,
non-completed handler **outside** the try/catch (its exceptions
propagate); otherwise a new command is parsed and started with the
try/catch protection of `startNewCommand`. -/
def parseAndExecute {H C Ctx : Type} (ops : HandlerOps H C Ctx)
    (sys : State H Ctx) (input : String) :
    Except JsError (State H Ctx × Result C) :=
  let trimmed := jsTrim input
  if trimmed = "" && sys.currentHandler.isNone then
    .ok (sys, { success := false, message := "请输入命令" })
  else
    match sys.currentHandler with
    | some h =>
      if !ops.isCompleted h then
        match ops.handleInput h sys.ctx input with
        | .error e => .error e
        | .ok (h', ctx', r) => .ok (finishActive ops sys h' ctx' r sys.inputHistory)
      else .ok (startNewCommand ops sys trimmed)
    | none => .ok (startNewCommand ops sys trimmed)

/-- `CommandSystem.handleMapClick(coord)`: forwarded only to an active
handler that is waiting for a map click (also outside any try/catch),
with the same completed-handler bookkeeping. -/
def handleMapClick {H C Ctx : Type} (ops : HandlerOps H C Ctx)
    (sys : State H Ctx) (coord : Coordinate) :
    Except JsError (State H Ctx × Result C) :=
  match sys.currentHandler with
  | some h =>
    if ops.isWaitingForMapClick h then
      match ops.handleMapClick h sys.ctx coord with
      | .error e => .error e
      | .ok (h', ctx', r) => .ok (finishActive ops sys h' ctx' r sys.inputHistory)
    else .ok (sys, { success := false, message := "当前没有命令等待地图点击" })
  | none => .ok (sys, { success := false, message := "当前没有命令等待地图点击" })

end CommandSystem

/-- The descriptions of the built-in factories, in registration order
(`registerBuiltinCommands`), as `Help` reads them from
`context.commandRegistry`. -/
def builtinCommandDescriptions : List (String × String) :=
  [("addpoint", "添加点到地图 (使用紧凑ID格式)"),
   ("addpolyline", "添加折线到地图 (使用紧凑ID格式)"),
   ("clear", "清除所有几何实体（点和线）"),
   ("help", "显示帮助信息和紧凑ID系统说明")]

/-- The dispatcher instantiated at the built-in registry: dynamic
dispatch over the four registered handler classes. -/
def realOps : CommandSystem.HandlerOps RealHandler RealCmd RealCtx :=
  { isCompleted := fun h =>
      match h with
      | .addPointH s => CommandBase.isCompleted s.core
      | .addPolylineH s => CommandBase.isCompleted s.core
      | .clearH s => CommandBase.isCompleted s.core
      | .helpH s => CommandBase.isCompleted s.core,
    isWaitingForMapClick := fun h =>
      match h with
      | .addPointH s => s.core.waitingForMapClick
      | .addPolylineH s => s.core.waitingForMapClick
      | .clearH s => s.core.waitingForMapClick
      | .helpH s => s.core.waitingForMapClick,
    start := fun h ctx =>
      match h with
      | .addPointH s =>
        let (s', r) := AddPointCommandHandler.start s
        .ok (.addPointH s', ctx, r)
      | .addPolylineH s =>
        let (s', r) := AddPolylineCommandHandler.start s
        .ok (.addPolylineH s', ctx, r)
      | .clearH s =>
        match ClearCommandHandler.start s ctx with
        | .error e => .error e
        | .ok (s', ctx', r) => .ok (.clearH s', ctx', r)
      | .helpH s =>
        let (s', r) := HelpCommandHandler.start s
        .ok (.helpH s', ctx, r),
    handleInput := fun h ctx input =>
      match h with
      | .addPointH s =>
        match AddPointCommandHandler.handleInput s ctx input with
        | .error e => .error e
        | .ok (s', ctx', r) => .ok (.addPointH s', ctx', r)
      | .addPolylineH s =>
        match CommandBase.handleInput AddPolylineCommandHandler.subOps s ctx input with
        | .error e => .error e
        | .ok (s', ctx', r) => .ok (.addPolylineH s', ctx', r)
      | .clearH s => .ok (.clearH s, ctx, CommandBase.getResult s.core)
      | .helpH s => .ok (.helpH s, ctx, CommandBase.getResult s.core),
    handleMapClick := fun h ctx coord =>
      match h with
      | .addPointH s =>
        let (s', r) := AddPointCommandHandler.handleMapClick s coord
        .ok (.addPointH s', ctx, r)
      | .addPolylineH s =>
        match AddPolylineCommandHandler.handleMapClick s ctx coord with
        | .error e => .error e
        | .ok (s', ctx', r) => .ok (.addPolylineH s', ctx', r)
      | .clearH s =>
        .ok (.clearH s, ctx, { success := false, message := "Clear 命令不支持地图点击" })
      | .helpH s =>
        .ok (.helpH s, ctx, { success := false, message := "Help 命令不支持地图点击" }),
    histAdd := realAddToHistory,
    factories :=
      [("addpoint", fun _ => .ok (.addPointH AddPointCommandHandler.mk)),
       ("addpolyline", fun _ => .ok (.addPolylineH AddPolylineCommandHandler.mk)),
       ("clear", fun _ => .ok (.clearH ClearCommandHandler.mk)),
       ("help", fun _ => .ok (.helpH (HelpCommandHandler.mk builtinCommandDescriptions)))] }

namespace AddPointCommandHandlerV2

/-- The state of the revised `AddPointCommandHandler` iteration (the one
built on the unified confirmation machinery): the base fields plus
`currentCoord`. -/
structure State where
  core : CommandBase.HandlerCore Coordinate RealCmd := {}
  currentCoord : Option Coordinate := none
deriving Repr

/-- The constructor. -/
def mk : State := {}

/-- `onFinish`: hide the temporary preview point when available. -/
def onFinish (s : State) (ctx : RealCtx) : Except JsError (State × RealCtx) :=
  match runGuardedCap ctx.mapView (fun mv => mv.hideTemporaryPoint) with
  | .error e => .error e
  | .ok _ => .ok (s, ctx)

/-- The pieces of `CommandHandler.finish` supplied by this subclass. -/
def finishOps : CommandBase.FinishOps State Coordinate RealCmd RealCtx :=
  { commandName := "AddPoint",
    modifyCore := fun s f => { s with core := f s.core },
    createCommand := fun _ _ coordinate =>
      some (.addPointCmd (AddPointCommand.mk coordinate)),
    cmdIsValid := RealCmd.isValid,
    cmdExecute := realCmdExecute,
    cmdDescription := RealCmd.getDescription,
    addToHistory := realAddToHistory,
    onFinish := onFinish }

/-- `onConfirm(method, data)`: validate the confirmed coordinate and
finish (the confirmation method only feeds a log line). -/
def onConfirm (s : State) (ctx : RealCtx) (_method : String) (data : Coordinate) :
    Except JsError (State × RealCtx × Result RealCmd) :=
  if !GeometryUtils.validateCoordinateQ data then
    .ok (s, ctx, { success := false, message := "确认的坐标无效" })
  else CommandBase.finish finishOps s ctx data

/-- The `ConfirmOps` view of this subclass. -/
def confirmOps : CommandBase.ConfirmOps State Coordinate RealCmd RealCtx :=
  { commandName := "AddPoint",
    getCore := fun s => s.core,
    modifyCore := fun s f => { s with core := f s.core },
    onConfirm := onConfirm }

/-- `selectCoordinate(coord)`: validate, record the coordinate, enter
`WAITING_CONFIRM` (method BOTH, pending payload = the coordinate), show
the preview, and ask for confirmation. -/
def selectCoordinate (s : State) (ctx : RealCtx) (coord : Coordinate) :
    Except JsError (State × RealCtx × Result RealCmd) :=
  if !GeometryUtils.validateCoordinateQ coord then
    .ok (s, ctx, { success := false, message := "坐标无效，请重新选择" })
  else
    let s' := { s with currentCoord := some coord,
                       core := CommandBase.setConfirmationState s.core
                         .WAITING_CONFIRM .BOTH (some coord)
                         ("确认在 (" ++ formatFixed 6 coord.lon ++ ", "
                           ++ formatFixed 6 coord.lat ++ ", "
                           ++ formatFixed 2 coord.height ++ "m) 添加点") }
    match runGuardedCapArg ctx.mapView (fun mv => mv.showTemporaryPoint) coord with
    | .error e => .error e
    | .ok _ =>
      .ok (s', ctx,
        { success := true,
          message := "已选择位置: " ++ formatFixed 6 coord.lon ++ ", "
            ++ formatFixed 6 coord.lat ++ ", " ++ formatFixed 2 coord.height
            ++ "m (按回车确认或右键确认)",
          coordString := some (formatFixed 6 coord.lon ++ ","
            ++ formatFixed 6 coord.lat ++ "," ++ formatFixed 2 coord.height),
          needsConfirm := true, needsMapClick := true, updateInput := true })

/-- The looser same-coordinate comparison of this handler's
`handleConfirmationInput`: 0.001 degrees for lon/lat and 1.0 m for
height (to tolerate display-formatted round-trips). -/
def isSameCoordinateLoose (a b : Coordinate) : Bool :=
  decide (ratAbs (qSub a.lon b.lon) < mkRat 1 1000) &&
  decide (ratAbs (qSub a.lat b.lat) < mkRat 1 1000) &&
  decide (ratAbs (qSub a.height b.height) < 1)

/-- `handleSpecificInput(input)`: coordinate text selects (does not yet
finish) the coordinate. -/
def handleSpecificInput (s : State) (ctx : RealCtx) (input : String) :
    Except JsError (State × RealCtx × Result RealCmd) :=
  if GeometryUtils.isCoordinateInput input then
    match GeometryUtils.parseCoordinate input with
    | some coord => selectCoordinate s ctx coord
    | none =>
      .ok (s, ctx, { success := false, message := "坐标格式错误，请使用: lon,lat,height" })
  else
    .ok (s, ctx, { success := false,
                   message := "请先点击地图选择位置或输入坐标 (格式: lon,lat,height)" })

/-- `handleConfirmationInput(input)`: coordinate text close to the
current coordinate (within `isSameCoordinateLoose`) is treated as an
Enter-confirmation; clearly different text re-selects; anything else is
a prompt. -/
def handleConfirmationInput (s : State) (ctx : RealCtx) (input : String) :
    Except JsError (State × RealCtx × Result RealCmd) :=
  if GeometryUtils.isCoordinateInput input then
    match GeometryUtils.parseCoordinate input, s.currentCoord with
    | some inputCoord, some currentCoord =>
      if isSameCoordinateLoose inputCoord currentCoord then
        CommandBase.executeConfirmation confirmOps s ctx "enter"
      else selectCoordinate s ctx inputCoord
    | some inputCoord, none => selectCoordinate s ctx inputCoord
    | none, _ =>
      .ok (s, ctx, { success := false, message := "坐标格式错误，请使用: lon,lat,height" })
  else
    .ok (s, ctx, { success := false,
                   message := "请按回车确认当前位置，或输入新坐标 (lon,lat,height)" })

/-- The base-class default `handleSpecificRightClick` (not overridden by
this subclass). -/
def handleSpecificRightClick (s : State) (ctx : RealCtx) :
    Except JsError (State × RealCtx × Result RealCmd) :=
  .ok (s, ctx, { success := false,
                 message := "AddPoint 命令在当前状态下不支持右键操作" })

/-- The full subclass hook record for the base-class input routing. -/
def subOps : CommandBase.SubclassOps State Coordinate RealCmd RealCtx :=
  { toConfirmOps := confirmOps,
    handleSpecificInput := handleSpecificInput,
    handleConfirmationInput := handleConfirmationInput,
    handleSpecificRightClick := handleSpecificRightClick }

/-- `start()`. -/
def start (s : State) : State × Result RealCmd :=
  let r : Result RealCmd :=
    { success := true,
      message := "请点击地图选择位置，或直接输入坐标 (lon,lat,height)",
      needsMapClick := true, needsConfirm := false }
  ({ s with core := { s.core with waitingForMapClick := true, result := some r } }, r)

/-- `handleMapClick(coord)`: delegate to `selectCoordinate`. -/
def handleMapClick (s : State) (ctx : RealCtx) (coord : Coordinate) :
    Except JsError (State × RealCtx × Result RealCmd) :=
  if !s.core.waitingForMapClick then
    .ok (s, ctx, { success := false, message := "当前不接受地图点击" })
  else selectCoordinate s ctx coord

end AddPointCommandHandlerV2

/-- JavaScript string interpolation of a raw number, used in a few Edit
messages: exact for integers; non-integer rationals are printed in
fraction form (the shortest-decimal float printing of JavaScript is not
modelled — these strings are display-only). -/
def jsNumToString (q : ℚ) : String :=
  if q.den = 1 then toString q.num else toString q

/-- The payload `finishEdit` hands to `finish`:
`{pointId, oldCoordinate, newCoordinate}`. -/
structure EditData where
  pointId : String
  oldCoordinate : Coordinate
  newCoordinate : Coordinate
deriving Repr

namespace EditPointCommandHandler

/-- The sub-step state strings of `EditPointCommandHandler`
(`EditPointCommand.js`). -/
inductive EditState where
  | WAITING_FOR_TARGET : EditState
  | WAITING_FOR_POSITION : EditState
  | WAITING_FOR_CONFIRM : EditState
deriving DecidableEq, Repr

/-- The state of the `EditPointCommandHandler` of `EditPointCommand.js`
(which drives its own three-step state machine instead of the base
confirmation fields; `pendingData` stays unused). -/
structure State where
  core : CommandBase.HandlerCore EditData RealCmd := {}
  targetPointId : Option String := none
  targetCoordinate : Option Coordinate := none
  newCoordinate : Option Coordinate := none
  state : EditState := .WAITING_FOR_TARGET
deriving Repr

/-- JS truthiness of `this.targetPointId` (null or the empty string are
falsy). -/
def targetIdTruthy (s : State) : Bool :=
  match s.targetPointId with
  | some id => id ≠ ""
  | none => false

/-- `onFinish`: visual cleanup.  `highlightSelectablePoints`,
`highlightSpecificPoint` and `disableEntitySelection` are probed before
the call, but `mapView` itself and `disableMapClick` /
`disableRightClickConfirm` are accessed unguarded (a missing method or a
null `mapView` is a TypeError); finally the handler fields reset. -/
def onFinish (s : State) (ctx : RealCtx) : Except JsError (State × RealCtx) :=
  match ctx.mapView with
  | none => .error ⟨"Cannot read properties of null"⟩
  | some mv => do
    (match mv.highlightSelectablePoints with
     | some f => f false
     | none => Except.ok ())
    (if targetIdTruthy s then
       match mv.highlightSpecificPoint, s.targetPointId with
       | some f, some id => f id false
       | _, _ => Except.ok ()
     else Except.ok ())
    (match mv.disableEntitySelection with
     | some eff => eff
     | none => Except.ok ())
    (match mv.disableMapClick with
     | some eff => eff
     | none => Except.error ⟨"this.context.mapView.disableMapClick is not a function"⟩)
    (match mv.disableRightClickConfirm with
     | some eff => eff
     | none =>
       Except.error ⟨"this.context.mapView.disableRightClickConfirm is not a function"⟩)
    Except.ok ({ s with targetPointId := none, targetCoordinate := none,
                        newCoordinate := none, state := .WAITING_FOR_TARGET }, ctx)

/-- The pieces of `CommandHandler.finish` supplied by this subclass:
`createCommand` builds the `EditPointCommand` from the edit payload
(looking the name of the target up in the store). -/
def finishOps : CommandBase.FinishOps State EditData RealCmd RealCtx :=
  { commandName := "EditPoint",
    modifyCore := fun s f => { s with core := f s.core },
    createCommand := fun _ ctx d =>
      some (.editCmd (EditPointCommand.mk ctx.czml d.pointId
        d.oldCoordinate d.newCoordinate)),
    cmdIsValid := RealCmd.isValid,
    cmdExecute := realCmdExecute,
    cmdDescription := RealCmd.getDescription,
    addToHistory := realAddToHistory,
    onFinish := onFinish }

/-- The `?.name || targetPointId` display-name lookup used in the Edit
messages (a null target id interpolates as the string "null"). -/
def displayName (ctx : RealCtx) (targetPointId : Option String) : String :=
  match targetPointId with
  | some id =>
    (match CzmlModel.getEntityById ctx.czml id with
     | some e => if e.name = "" then id else e.name
     | none => id)
  | none => "null"

/-- `selectNewPosition(newCoord)`: record the candidate position, enter
`WAITING_FOR_CONFIRM`, and describe the move (the store is untouched). -/
def selectNewPosition (s : State) (ctx : RealCtx) (newCoord : Coordinate) :
    State × Result RealCmd :=
  let s' := { s with newCoordinate := some newCoord, state := .WAITING_FOR_CONFIRM }
  let pointName := displayName ctx s'.targetPointId
  let distance :=
    match s'.targetCoordinate with
    | some tc => GeometryUtils.calculateDistance ctx.cesiumDistance tc newCoord
    | none => none
  let distanceText := distanceTextJS distance
  (s',
   { success := true,
     message := pointName ++ " 将移动到 (" ++ formatFixed 6 newCoord.lon ++ ", "
       ++ formatFixed 6 newCoord.lat ++ ", " ++ jsNumToString newCoord.height
       ++ "m)，移动距离: " ++ distanceText ++ " (按回车确认或右键确认)",
     coordString := some (formatFixed 6 newCoord.lon ++ ","
       ++ formatFixed 6 newCoord.lat ++ "," ++ jsNumToString newCoord.height),
     needsMapClick := true, needsConfirm := true, updateInput := true })

/-- `finishEdit()`: refuse on incomplete data, otherwise `finish` with
the collected payload. -/
def finishEdit (s : State) (ctx : RealCtx) :
    Except JsError (State × RealCtx × Result RealCmd) :=
  match s.targetPointId, s.targetCoordinate, s.newCoordinate with
  | some id, some oldCoord, some newCoord =>
    if id = "" then
      .ok (s, ctx, { success := false, message := "编辑数据不完整，无法完成操作" })
    else CommandBase.finish finishOps s ctx ⟨id, oldCoord, newCoord⟩
  | _, _, _ =>
    .ok (s, ctx, { success := false, message := "编辑数据不完整，无法完成操作" })

/-- `handleConfirmInput(input)` (the `WAITING_FOR_CONFIRM` branch of
`handleInput`): coordinate text equal to the pending new coordinate
within the `EditPointCommand.isSamePosition` tolerances confirms
(`finishEdit`); different coordinate text re-selects; empty input
confirms; anything else prompts. -/
def handleConfirmInput (s : State) (ctx : RealCtx) (input : String) :
    Except JsError (State × RealCtx × Result RealCmd) :=
  let trimmed := jsTrim input
  match s.newCoordinate with
  | some pending =>
    if GeometryUtils.isCoordinateInput trimmed then
      match GeometryUtils.parseCoordinate trimmed with
      | some inputCoord =>
        if EditPointCommand.isSamePosition inputCoord pending then
          finishEdit s ctx
        else
          let (s', r) := selectNewPosition s ctx inputCoord
          .ok (s', ctx, r)
      | none =>
        .ok (s, ctx, { success := false,
                       message := "坐标格式错误，请使用格式: lon,lat,height" })
    else if trimmed = "" then finishEdit s ctx
    else
      .ok (s, ctx, { success := false,
                     message := "请按回车确认当前位置，或输入新坐标 (lon,lat,height) 修改位置" })
  | none =>
    if trimmed ≠ "" then
      .ok (s, ctx, { success := false,
                     message := "请按回车确认当前位置，或输入新坐标 (lon,lat,height) 修改位置" })
    else
      .ok (s, ctx, { success := false, message := "请先选择新位置，然后按回车确认" })

end EditPointCommandHandler

/-- A fresh shared context: empty store, fresh `CommandHistory`, no map
view, no Cesium capability. -/
def initialRealCtx : RealCtx :=
  { czml := CzmlModel.init, history := CommandHistory.init RealCmd }

/-- A fresh dispatcher over the fresh context. -/
def initialSys : CommandSystem.State RealHandler RealCtx :=
  { ctx := initialRealCtx }

/-- Scenario A of the spec: `dispatch("AddPoint")`, a map gesture at
`(-108.000000, 58.000000, 0)`, then `dispatch("")`, from a fresh
dispatcher and store.  Returns the three results and the final
dispatcher state. -/
def scenarioA :
    Except JsError (Result RealCmd × Result RealCmd × Result RealCmd ×
      CommandSystem.State RealHandler RealCtx) := do
  let (sys1, r1) ← CommandSystem.parseAndExecute realOps initialSys "AddPoint"
  let (sys2, r2) ← CommandSystem.handleMapClick realOps sys1 ⟨-108, 58, 0⟩
  let (sys3, r3) ← CommandSystem.parseAndExecute realOps sys2 ""
  .ok (r1, r2, r3, sys3)

/-- A context whose map view has an `updateTemporaryPolyline` capability that
throws (a legitimate caller-supplied context: the dispatch contract is
claimed for every context). -/
def throwingMapCtx : RealCtx :=
  { czml := CzmlModel.init, history := CommandHistory.init RealCmd,
    mapView := some { updateTemporaryPolyline := some (fun _ => .error ⟨"boom"⟩) } }

/-- Start `AddPolyline` (succeeds; `start` touches no capability), then
forward the vertex text `0,0,0` to the now-active handler: the preview
refresh inside `addCoordinatePoint` throws, and the active-handler
branch of `parseAndExecute` has no try/catch around it. -/
def polylineThrowScenario :
    Except JsError (CommandSystem.State RealHandler RealCtx × Result RealCmd) := do
  let (sys1, _r1) ← CommandSystem.parseAndExecute realOps
    { ctx := throwingMapCtx } "AddPolyline"
  CommandSystem.parseAndExecute realOps sys1 "0,0,0"

/-- A fresh revised AddPoint handler after `start()` and a map click at
the origin: it sits in `WAITING_CONFIRM` (method BOTH) with pending
coordinate `(0,0,0)`. -/
def v2AfterClick : Except JsError (AddPointCommandHandlerV2.State × RealCtx × Result RealCmd) :=
  let (s1, _r1) := AddPointCommandHandlerV2.start AddPointCommandHandlerV2.mk
  AddPointCommandHandlerV2.handleMapClick s1 initialRealCtx ⟨0, 0, 0⟩

/-- Feed the confirmation-state handler coordinate text `0.0001,0,0`:
off the pending coordinate by `10^{-4}` degrees of longitude — beyond
Edit's `1e-6` same-position tolerance but inside this handler's looser
`0.001` tolerance. -/
def v2ConfirmInputRun :
    Except JsError (AddPointCommandHandlerV2.State × RealCtx × Result RealCmd) := do
  let (s2, ctx2, _r2) ← v2AfterClick
  CommandBase.handleInput AddPointCommandHandlerV2.subOps s2 ctx2 "0.0001,0,0"

/-- Claim C8's reading of `validateCoordinate`, following the spec's
words: an object whose `lon` is a number in [-180,180], whose `lat` is a
number in [-90,90], and whose `height` is a **finite** number. -/
def validateCoordinateSpecC8 (c : JSCoordVal) : Bool :=
  match c with
  | none => false
  | some o =>
    (match o.lon with
     | some (.fin q) => decide (-180 ≤ q ∧ q ≤ 180)
     | _ => false) &&
    (match o.lat with
     | some (.fin q) => decide (-90 ≤ q ∧ q ≤ 90)
     | _ => false) &&
    (match o.height with
     | some (.fin _) => true
     | _ => false)

/-- The amended reading of `validateCoordinate`: as claim C8 but the
height need only be a non-NaN number (the infinities are accepted). -/
def validateCoordinateSpecAmended (c : JSCoordVal) : Bool :=
  match c with
  | none => false
  | some o =>
    (match o.lon with
     | some (.fin q) => decide (-180 ≤ q ∧ q ≤ 180)
     | _ => false) &&
    (match o.lat with
     | some (.fin q) => decide (-90 ≤ q ∧ q ≤ 90)
     | _ => false) &&
    (match o.height with
     | some h => !h.isNaN
     | none => false)

/-- The coordinate object `{lon: 0, lat: 0, height: Infinity}`. -/
def infHeightCoord : JSCoordVal :=
  some ⟨some (.fin 0), some (.fin 0), some .posInf⟩

/-- A one-command dispatcher instantiation whose only handler throws
from `start()` (used to witness the dispatch catch behaviour). -/
def throwingStartOps : CommandSystem.HandlerOps Unit Unit Unit :=
  { isCompleted := fun _ => true,
    isWaitingForMapClick := fun _ => false,
    start := fun _ _ => .error ⟨"x"⟩,
    handleInput := fun h ctx _ => .ok (h, ctx, { success := false, message := "" }),
    handleMapClick := fun h ctx _ => .ok (h, ctx, { success := false, message := "" }),
    histAdd := fun _ ctx => ctx,
    factories := [("boom", fun _ => .ok ())] }

/-! ## Theorems -/

/-- C8 (counterexample): the claim "validateCoordinate(c) returns true
iff … height is a finite number; in particular it returns false when
height is +Infinity" is false at `{lon: 0, lat: 0, height: Infinity}`:
the code accepts it (only `isNaN` is checked for the height) while the
claimed characterisation rejects it. -/
theorem validateCoordinate_accepts_infinite_height :
    GeometryUtils.validateCoordinate infHeightCoord = true ∧
    validateCoordinateSpecC8 infHeightCoord = false := by
  constructor <;> rfl

/-- C8 (amended): `validateCoordinate(c)` returns true iff `c` is an
object whose `lon` is a non-NaN number in [-180,180], whose `lat` is a
non-NaN number in [-90,90], and whose `height` is a non-NaN number —
the infinities are accepted as heights. -/
theorem validateCoordinate_eq_spec_amended (c : JSCoordVal) :
    GeometryUtils.validateCoordinate c = validateCoordinateSpecAmended c := by
  rcases c with _ | ⟨lon, lat, height⟩
  · rfl
  simp only [GeometryUtils.validateCoordinate, validateCoordinateSpecAmended]
  rcases lon with _ | lon
  · rfl
  rcases lat with _ | lat
  · cases lon <;> simp [JSNum.isNaN, JSNum.ltConst, JSNum.gtConst]
  rcases height with _ | height
  · cases lon <;> cases lat <;> simp [JSNum.isNaN, JSNum.ltConst, JSNum.gtConst]
  cases lon <;> cases lat <;> cases height <;>
    simp [JSNum.isNaN, JSNum.ltConst, JSNum.gtConst, ← decide_not, not_lt]

/-- C9: `parseCoordinate(s)` is total (the model needs no exception
path), returns `none` whenever the numeric-triplet grammar rejects the
input, and returns a coordinate only when the grammar matches and the
parsed values pass coordinate validation. -/
theorem parseCoordinate_contract (s : String) :
    (GeometryUtils.isCoordinateInput s = false →
      GeometryUtils.parseCoordinate s = none) ∧
    (∀ c, GeometryUtils.parseCoordinate s = some c →
      GeometryUtils.isCoordinateInput s = true ∧
      GeometryUtils.validateCoordinateQ c = true) := by
  unfold GeometryUtils.parseCoordinate GeometryUtils.isCoordinateInput
  constructor
  · intro h
    simp [h]
  · intro c hc
    by_cases hm : GeometryUtils.coordRegexMatch (jsTrim s).data
    · refine ⟨hm, ?_⟩
      simp only [hm, if_true] at hc
      split at hc
      · split at hc
        · rename_i hv
          cases hc
          exact hv
        · exact absurd hc (by simp)
      · exact absurd hc (by simp)
    · simp [hm] at hc

/-- Witness for C9 at the concrete input "1,2,3". -/
theorem parseCoordinate_contract_witness :
    GeometryUtils.isCoordinateInput "1,2,3" = true ∧
    GeometryUtils.validateCoordinateQ ⟨1, 2, 3⟩ = true :=
  (parseCoordinate_contract "1,2,3").2 ⟨1, 2, 3⟩ (by decide)

/-- C1 (code bug): Scenario A — `dispatch("AddPoint")`, a map gesture at
`(-108, 58, 0)`, then `dispatch("")` — on a fresh dispatcher and store
yields `needsMapClick`, then `needsConfirm`, then a successful final
result, and the store holds exactly one new point at that coordinate;
but the command history ends with **2** entries, not 1: the produced
command is pushed once by `CommandHandler.finish → addToHistory` and a
second time by the completed-handler bookkeeping of `parseAndExecute`. -/
theorem scenarioA_success_one_point_but_double_history :
    (scenarioA.map (fun out =>
      (out.1.needsMapClick, out.2.1.needsConfirm, out.2.2.1.success,
       CzmlModel.getAllPoints out.2.2.2.ctx.czml,
       out.2.2.2.ctx.history.history.length))) =
    .ok (true, true, true,
         [⟨"PT_1", "Point-1", .point ⟨-108, 58, 0⟩⟩], 2) := by
  rfl

/-- C3 (counterexample): the claim "dispatch never propagates an
exception … any exception raised … while forwarding input to an
already-active handler's handleInput is caught" is false: with a context
whose map-view `updateTemporaryPolyline` throws, starting
`AddPolyline` and then dispatching the vertex text `0,0,0` makes
`parseAndExecute` propagate the exception instead of returning a
failure result. -/
theorem parseAndExecute_propagates_active_handler_exception :
    (polylineThrowScenario.map (fun _ => ())) = .error ⟨"boom"⟩ := by
  rfl

/-- C3 (amended): exceptions thrown during handler construction or
during `start()` are caught by `parseAndExecute`: the handler is
discarded (`currentHandler = null`) and a failure result carrying
`"命令执行失败: " ++ message` is returned (input forwarded to an
already-active handler enjoys no such protection). -/
theorem parseAndExecute_catches_construction_and_start_errors
    {H C Ctx : Type} (ops : CommandSystem.HandlerOps H C Ctx)
    (sys : CommandSystem.State H Ctx) (input : String)
    (fac : Ctx → Except JsError H)
    (hactive : ∀ h, sys.currentHandler = some h → ops.isCompleted h = true)
    (htrim : jsTrim input ≠ "")
    (hlookup : ops.factories.lookup
      (String.mk ((CommandSystem.firstToken (jsTrim input)).data.map Char.toLower))
      = some fac) :
    (∀ e, fac sys.ctx = .error e →
       CommandSystem.parseAndExecute ops sys input =
         .ok ({ sys with currentHandler := none },
              { success := false, message := "命令执行失败: " ++ e.msg })) ∧
    (∀ h0 e, fac sys.ctx = .ok h0 → ops.start h0 sys.ctx = .error e →
       CommandSystem.parseAndExecute ops sys input =
         .ok ({ sys with currentHandler := none, inputHistory := CommandSystem.pushInputHistory sys.inputHistory (jsTrim input) },
              { success := false, message := "命令执行失败: " ++ e.msg })) := by
  have hbranch : CommandSystem.parseAndExecute ops sys input =
      .ok (CommandSystem.startNewCommand ops sys (jsTrim input)) := by
    unfold CommandSystem.parseAndExecute
    rcases hcur : sys.currentHandler with _ | h
    · simp [htrim, hcur]
    · have hcomp := hactive h hcur
      simp [htrim, hcur, hcomp]
  constructor
  · intro e he
    rw [hbranch]
    simp only [CommandSystem.startNewCommand, hlookup, he]
  · intro h0 e hok he
    rw [hbranch]
    simp only [CommandSystem.startNewCommand, hlookup, hok, he]

/-- Witness for the amended C3 at a concrete dispatcher whose only
factory builds a handler that throws from `start()`. -/
theorem parseAndExecute_catches_construction_and_start_errors_witness :
    CommandSystem.parseAndExecute throwingStartOps { ctx := () } "Boom" =
    .ok ({ currentHandler := none, inputHistory := ["Boom"], ctx := () },
         { success := false, message := "命令执行失败: x" }) :=
  (parseAndExecute_catches_construction_and_start_errors throwingStartOps
    { ctx := () } "Boom" (fun _ => .ok ())
    (fun h hh => Option.noConfusion hh) (by decide) rfl).2 () ⟨"x"⟩ rfl rfl

/-- C7 (counterexample): the claim that coordinate text outside the Edit
same-position tolerance (1e-6 degrees) "replaces the pending value
instead of confirming" is false for the AddPoint handler: in
`WAITING_CONFIRM` with pending coordinate `(0,0,0)`, the text
`0.0001,0,0` (off by 1e-4 degrees) is treated as a confirmation — the
handler completes, reports success, and the store gains a point at the
**old** pending coordinate `(0,0,0)`. -/
theorem addPoint_confirmation_tolerance_counterexample :
    (v2ConfirmInputRun.map (fun out =>
      (out.1.core.completed, out.2.2.success, out.2.2.command.isSome,
       CzmlModel.getAllPoints out.2.1.czml))) =
    .ok (true, true, true, [⟨"PT_1", "Point-1", .point ⟨0, 0, 0⟩⟩]) := by
  rfl

/-- C2: for any handler built on the base-class confirmation machinery
that is in `WAITING_CONFIRM` with allowed method `BOTH` and a pending
payload, and whose `onConfirm` hook does not depend on the confirmation
method (true of every subclass in the repository, where the method only
feeds a log line), `handleInput("")` and `handleRightClickConfirm()`
run the same confirmation path on the same pending payload and return
identical states, contexts and results. -/
theorem handleInput_empty_eq_handleRightClickConfirm
    {S D C Ctx : Type} (ops : CommandBase.SubclassOps S D C Ctx)
    (s : S) (ctx : Ctx)
    (hstate : (ops.getCore s).confirmationState = .WAITING_CONFIRM)
    (hmethod : (ops.getCore s).confirmationMethod = .BOTH)
    (_hpending : (ops.getCore s).pendingData.isSome = true)
    (hconf : ∀ d, ops.onConfirm s ctx "enter" d = ops.onConfirm s ctx "right_click" d) :
    CommandBase.handleInput ops s ctx "" = CommandBase.handleRightClickConfirm ops s ctx := by
  unfold CommandBase.handleInput CommandBase.handleRightClickConfirm
  have htrim : jsTrim "" = "" := rfl
  simp only [htrim, hstate, hmethod]
  have hne : (CommandBase.ConfirmationMethod.BOTH = .ENTER_ONLY) = False := by
    simp
  simp only [if_pos rfl, hne, if_false, if_true]
  unfold CommandBase.executeConfirmation
  rcases hp : (ops.toConfirmOps.getCore s).pendingData with _ | d
  · rfl
  · simp only [hconf]

/-- Witness for C2: the revised AddPoint handler in `WAITING_CONFIRM`
with pending coordinate (1,2,3). -/
theorem handleInput_empty_eq_handleRightClickConfirm_witness :
    CommandBase.handleInput AddPointCommandHandlerV2.subOps
      { core := { waitingForMapClick := true, confirmationState := .WAITING_CONFIRM, confirmationMethod := .BOTH, pendingData := some ⟨1, 2, 3⟩ }, currentCoord := some ⟨1, 2, 3⟩ }
      initialRealCtx "" =
    CommandBase.handleRightClickConfirm AddPointCommandHandlerV2.subOps
      { core := { waitingForMapClick := true, confirmationState := .WAITING_CONFIRM, confirmationMethod := .BOTH, pendingData := some ⟨1, 2, 3⟩ }, currentCoord := some ⟨1, 2, 3⟩ }
      initialRealCtx :=
  handleInput_empty_eq_handleRightClickConfirm AddPointCommandHandlerV2.subOps
    _ initialRealCtx rfl rfl rfl (fun _ => rfl)

/-- C6: for an Edit command built from a (truthy) string id and two
valid coordinates, `isValid()` is false exactly when the old and new
coordinates coincide within the stated tolerances (1e-6 degrees for
lon/lat, 1e-3 m for height); beyond the tolerance it is true. -/
theorem editPoint_isValid_false_iff_same_position
    (m : CzmlModel.State) (id : String) (p q : Coordinate)
    (hid : id ≠ "")
    (hp : GeometryUtils.validateCoordinateQ p = true)
    (hq : GeometryUtils.validateCoordinateQ q = true) :
    EditPointCommand.isValid (EditPointCommand.mk m id p q) = false ↔
      EditPointCommand.isSamePosition p q = true := by
  unfold EditPointCommand.isValid EditPointCommand.mk
  simp only [hid, hp, hq, if_false, Bool.not_true, ite_false]
  cases h : EditPointCommand.isSamePosition p q <;> simp [h, hid]

/-- Witness for C6: `Edit(id, p, p)` with identical coordinates is
invalid. -/
theorem editPoint_isValid_false_iff_same_position_witness :
    EditPointCommand.isValid
      (EditPointCommand.mk CzmlModel.init "PT_1" ⟨1, 2, 3⟩ ⟨1, 2, 3⟩) = false :=
  (editPoint_isValid_false_iff_same_position CzmlModel.init "PT_1" ⟨1, 2, 3⟩ ⟨1, 2, 3⟩
    (by decide) (by decide) (by decide)).2 (by decide)

/-- C5: an AddPolyline attempt with fewer than 2 accumulated points
fails at every stage without touching the store: `execute()` returns
false and leaves the store unchanged, `prepareToFinish` returns a
failure result and changes nothing, and the `finish` path (when it
returns rather than propagating a preview-capability exception)
produces a failure result with the context — store and history —
unchanged. -/
theorem addPolyline_under_two_points_fails_without_mutation
    (cmd : AddPolylineCommand.State) (m : CzmlModel.State)
    (s : AddPolylineCommandHandler.State) (ctx : RealCtx)
    (coords : List Coordinate)
    (hcmd : cmd.coordinates.length < 2)
    (hs : s.coordinates.length < 2)
    (hcoords : coords.length < 2) :
    ((AddPolylineCommand.execute cmd m).1 = false ∧
     (AddPolylineCommand.execute cmd m).2.2 = m) ∧
    ((AddPolylineCommandHandler.prepareToFinish s ctx).1 = s ∧
     (AddPolylineCommandHandler.prepareToFinish s ctx).2.1 = ctx ∧
     (AddPolylineCommandHandler.prepareToFinish s ctx).2.2.success = false) ∧
    (∀ s' ctx' r,
       CommandBase.finish AddPolylineCommandHandler.finishOps s ctx coords =
         .ok (s', ctx', r) →
       r.success = false ∧ ctx' = ctx) := by
  have hvalid : GeometryUtils.validateCoordinates cmd.coordinates 2 = false := by
    unfold GeometryUtils.validateCoordinates
    simp [Nat.lt_iff_add_one_le] at hcmd ⊢
    omega
  have hvalid2 : GeometryUtils.validateCoordinates coords 2 = false := by
    unfold GeometryUtils.validateCoordinates
    simp [Nat.lt_iff_add_one_le] at hcoords ⊢
    omega
  refine ⟨⟨?_, ?_⟩, ⟨?_, ?_, ?_⟩, ?_⟩
  · unfold AddPolylineCommand.execute AddPolylineCommand.isValid
    split <;> simp [hvalid]
  · unfold AddPolylineCommand.execute AddPolylineCommand.isValid
    split <;> simp [hvalid]
  · unfold AddPolylineCommandHandler.prepareToFinish
    simp [hs]
  · unfold AddPolylineCommandHandler.prepareToFinish
    simp [hs]
  · unfold AddPolylineCommandHandler.prepareToFinish
    simp [hs]
  · intro s' ctx' r hfin
    unfold CommandBase.finish AddPolylineCommandHandler.finishOps at hfin
    simp only [RealCmd.isValid, AddPolylineCommand.isValid, AddPolylineCommand.mk,
      hvalid2, Bool.not_false, if_true] at hfin
    unfold CommandBase.finishFailure at hfin
    dsimp only at hfin
    split at hfin
    · exact absurd hfin (by simp)
    · rename_i out heq
      obtain ⟨s'', ctx''⟩ := out
      simp only [Except.ok.injEq, Prod.mk.injEq] at hfin
      obtain ⟨hs1, hctx1, hr⟩ := hfin
      unfold AddPolylineCommandHandler.onFinish at heq
      constructor
      · rw [← hr]
      · split at heq
        · exact absurd heq (by simp)
        · rename_i u hcap
          simp only [Except.ok.injEq, Prod.mk.injEq] at heq
          rw [← hctx1]
          exact heq.2.symm

/-- Witness for C5 at a one-vertex attempt. -/
theorem addPolyline_under_two_points_fails_without_mutation_witness :
    (AddPolylineCommand.execute (AddPolylineCommand.mk [⟨0, 0, 0⟩]) CzmlModel.init).1 = false ∧
    (AddPolylineCommand.execute (AddPolylineCommand.mk [⟨0, 0, 0⟩]) CzmlModel.init).2.2 = CzmlModel.init :=
  (addPolyline_under_two_points_fails_without_mutation
    (AddPolylineCommand.mk [⟨0, 0, 0⟩]) CzmlModel.init
    { coordinates := [⟨0, 0, 0⟩] } initialRealCtx [⟨0, 0, 0⟩]
    (by decide) (by decide) (by decide)).1

/-- C7 (amended): in `WAITING_CONFIRM` with a pending coordinate,
coordinate text is treated as a confirmation when it is numerically
equivalent to the pending coordinate, and replaces the pending value
otherwise — but the tolerance differs by handler: the AddPoint
confirmation-input handler uses the looser 0.001 degrees (lon/lat) and
1.0 m (height), while the Edit handler's confirm path uses Edit's
same-position tolerance (1e-6 degrees, 1e-3 m). -/
theorem confirmation_input_tolerance_amended :
    (∀ (s : AddPointCommandHandlerV2.State) (ctx : RealCtx) (t : String)
       (i c : Coordinate),
       s.core.confirmationState = .WAITING_CONFIRM →
       s.currentCoord = some c →
       jsTrim t = t →
       GeometryUtils.isCoordinateInput t = true →
       GeometryUtils.parseCoordinate t = some i →
       (AddPointCommandHandlerV2.isSameCoordinateLoose i c = true →
          CommandBase.handleInput AddPointCommandHandlerV2.subOps s ctx t =
            CommandBase.executeConfirmation AddPointCommandHandlerV2.confirmOps
              s ctx "enter") ∧
       (AddPointCommandHandlerV2.isSameCoordinateLoose i c = false →
          CommandBase.handleInput AddPointCommandHandlerV2.subOps s ctx t =
            AddPointCommandHandlerV2.selectCoordinate s ctx i)) ∧
    (∀ (s : EditPointCommandHandler.State) (ctx : RealCtx) (t : String)
       (i p : Coordinate),
       s.newCoordinate = some p →
       jsTrim t = t →
       GeometryUtils.isCoordinateInput t = true →
       GeometryUtils.parseCoordinate t = some i →
       (EditPointCommand.isSamePosition i p = true →
          EditPointCommandHandler.handleConfirmInput s ctx t =
            EditPointCommandHandler.finishEdit s ctx) ∧
       (EditPointCommand.isSamePosition i p = false →
          EditPointCommandHandler.handleConfirmInput s ctx t =
            .ok ((EditPointCommandHandler.selectNewPosition s ctx i).1, ctx,
                 (EditPointCommandHandler.selectNewPosition s ctx i).2))) := by
  constructor
  · intro s ctx t i c hstate hcur htr hci hp
    have hne : t ≠ "" := by
      intro h
      rw [h] at hci
      exact absurd hci (by decide)
    have hroute : CommandBase.handleInput AddPointCommandHandlerV2.subOps s ctx t =
        AddPointCommandHandlerV2.handleConfirmationInput s ctx t := by
      unfold CommandBase.handleInput
      dsimp only [AddPointCommandHandlerV2.subOps, AddPointCommandHandlerV2.confirmOps]
      rw [htr, hstate]
      simp [hne]
    constructor <;> intro htol <;>
      rw [hroute] <;>
      unfold AddPointCommandHandlerV2.handleConfirmationInput <;>
      rw [hci] <;> simp only [if_true] <;>
      rw [hp, hcur] <;> simp [htol]
  · intro s ctx t i p hnew htr hci hp
    constructor <;> intro htol <;>
      unfold EditPointCommandHandler.handleConfirmInput <;>
      rw [htr, hnew] <;>
      simp only [hci, if_true] <;>
      rw [hp] <;> simp [htol]

/-- Witness for the amended C7: the AddPoint handler confirms on
re-entered text `0,0,0` equal to the pending `(0,0,0)`, and the Edit
confirm path re-selects on text `0.0001,0,0` that is outside the 1e-6
tolerance of its pending `(0,0,0)`. -/
theorem confirmation_input_tolerance_amended_witness :
    (CommandBase.handleInput AddPointCommandHandlerV2.subOps
      { core := { waitingForMapClick := true, confirmationState := .WAITING_CONFIRM, confirmationMethod := .BOTH, pendingData := some ⟨0, 0, 0⟩ }, currentCoord := some ⟨0, 0, 0⟩ }
      initialRealCtx "0,0,0" =
     CommandBase.executeConfirmation AddPointCommandHandlerV2.confirmOps
      { core := { waitingForMapClick := true, confirmationState := .WAITING_CONFIRM, confirmationMethod := .BOTH, pendingData := some ⟨0, 0, 0⟩ }, currentCoord := some ⟨0, 0, 0⟩ }
      initialRealCtx "enter") ∧
    (EditPointCommandHandler.handleConfirmInput
      { state := .WAITING_FOR_CONFIRM, targetPointId := some "PT_1", targetCoordinate := some ⟨1, 1, 0⟩, newCoordinate := some ⟨0, 0, 0⟩ }
      initialRealCtx "0.0001,0,0" =
     .ok ((EditPointCommandHandler.selectNewPosition
            { state := .WAITING_FOR_CONFIRM, targetPointId := some "PT_1", targetCoordinate := some ⟨1, 1, 0⟩, newCoordinate := some ⟨0, 0, 0⟩ }
            initialRealCtx ⟨mkRat 1 10000, 0, 0⟩).1, initialRealCtx,
          (EditPointCommandHandler.selectNewPosition
            { state := .WAITING_FOR_CONFIRM, targetPointId := some "PT_1", targetCoordinate := some ⟨1, 1, 0⟩, newCoordinate := some ⟨0, 0, 0⟩ }
            initialRealCtx ⟨mkRat 1 10000, 0, 0⟩).2)) :=
  ⟨(confirmation_input_tolerance_amended.1 _ initialRealCtx "0,0,0" ⟨0, 0, 0⟩ ⟨0, 0, 0⟩
      rfl rfl rfl (by decide) (by decide)).1 (by decide),
   (confirmation_input_tolerance_amended.2 _ initialRealCtx "0.0001,0,0"
      ⟨mkRat 1 10000, 0, 0⟩ ⟨0, 0, 0⟩ rfl rfl (by decide) (by decide)).2 (by decide)⟩

/-- C4: from a fresh history, `addCommand c1; addCommand c2; undo();
addCommand c3` (where the undo of `c2` succeeds) leaves exactly the entries
`[c1, c3]`, and a subsequent `redo()` returns false: the undone `c2`
branch was discarded by recording `c3`. -/
theorem commandHistory_record_undo_record_discards_redo
    {C S : Type} (cmdExec cmdUndo : C → S → Bool × C × S)
    (c1 c2 c3 : C) (s : S)
    (hundo : (cmdUndo c2 s).1 = true) :
    (CommandHistory.redo cmdExec
      (CommandHistory.addCommand
        (CommandHistory.undo cmdUndo
          (CommandHistory.addCommand
            (CommandHistory.addCommand (CommandHistory.init C) c1) c2) s).2.1 c3)
      (CommandHistory.undo cmdUndo
        (CommandHistory.addCommand
          (CommandHistory.addCommand (CommandHistory.init C) c1) c2) s).2.2).1 = false ∧
    (CommandHistory.addCommand
      (CommandHistory.undo cmdUndo
        (CommandHistory.addCommand
          (CommandHistory.addCommand (CommandHistory.init C) c1) c2) s).2.1 c3).history
      = [c1, c3] := by
  rcases hu : cmdUndo c2 s with ⟨b, c2', s'⟩
  rw [hu] at hundo
  simp only at hundo
  subst hundo
  have e1 : CommandHistory.addCommand (CommandHistory.init C) c1 =
      { history := [c1], currentIndex := 0, maxHistorySize := 50 } := by
    unfold CommandHistory.addCommand CommandHistory.init
    norm_num
  have e2 : CommandHistory.addCommand
      ({ history := [c1], currentIndex := 0, maxHistorySize := 50 } :
        CommandHistory.State C) c2 =
      { history := [c1, c2], currentIndex := 1, maxHistorySize := 50 } := by
    unfold CommandHistory.addCommand
    norm_num
  have e3 : CommandHistory.undo cmdUndo
      ({ history := [c1, c2], currentIndex := 1, maxHistorySize := 50 } :
        CommandHistory.State C) s =
      (true, { history := [c1, c2'], currentIndex := 0, maxHistorySize := 50 }, s') := by
    unfold CommandHistory.undo
    norm_num [hu]
  have e4 : CommandHistory.addCommand
      ({ history := [c1, c2'], currentIndex := 0, maxHistorySize := 50 } :
        CommandHistory.State C) c3 =
      { history := [c1, c3], currentIndex := 1, maxHistorySize := 50 } := by
    unfold CommandHistory.addCommand
    norm_num
  rw [e1, e2, e3]
  simp only
  rw [e4]
  constructor
  · unfold CommandHistory.redo
    norm_num
  · rfl

/-- Witness for C4 with trivially undoable toy commands. -/
theorem commandHistory_record_undo_record_discards_redo_witness :
    (CommandHistory.redo (C := Nat) (S := Unit) (fun c u => (true, c, u))
      (CommandHistory.addCommand
        (CommandHistory.undo (fun c u => (true, c, u))
          (CommandHistory.addCommand
            (CommandHistory.addCommand (CommandHistory.init Nat) 1) 2) ()).2.1 3)
      (CommandHistory.undo (fun c u => (true, c, u))
        (CommandHistory.addCommand
          (CommandHistory.addCommand (CommandHistory.init Nat) 1) 2) ()).2.2).1 = false ∧
    (CommandHistory.addCommand
      (CommandHistory.undo (fun c u => (true, c, u))
        (CommandHistory.addCommand
          (CommandHistory.addCommand (CommandHistory.init Nat) 1) 2) ()).2.1 3).history
      = [1, 3] :=
  commandHistory_record_undo_record_discards_redo
    (fun c u => (true, c, u)) (fun c u => (true, c, u)) 1 2 3 () rfl

/-- Helper: `addCommand` preserves the `CommandHistory` invariant. -/
theorem commandHistory_inv_addCommand {C : Type}
    (h : CommandHistory.State C) (c : C)
    (hinv : CommandHistory.Inv h) : CommandHistory.Inv (CommandHistory.addCommand h c) := by
  obtain ⟨h1, h2, h3⟩ := hinv
  unfold CommandHistory.addCommand CommandHistory.Inv
  dsimp only
  split_ifs with hcut hover1 hover2 <;>
    simp_all [List.length_take, List.length_append, List.length_drop] <;>
    omega

/-- Helper: `undo` preserves the `CommandHistory` invariant. -/
theorem commandHistory_inv_undo {C S : Type}
    (cmdUndo : C → S → Bool × C × S)
    (h : CommandHistory.State C) (s : S)
    (hinv : CommandHistory.Inv h) :
    CommandHistory.Inv (CommandHistory.undo cmdUndo h s).2.1 := by
  obtain ⟨h1, h2, h3⟩ := hinv
  unfold CommandHistory.undo CommandHistory.Inv
  dsimp only
  split_ifs with hneg
  · exact ⟨h1, h2, h3⟩
  · split
    · exact ⟨h1, h2, h3⟩
    · rename_i cmd hget
      rcases cmdUndo cmd s with ⟨b, c', s'⟩
      dsimp only
      split_ifs <;> simp [List.length_set] <;> omega

/-- Helper: `redo` preserves the `CommandHistory` invariant. -/
theorem commandHistory_inv_redo {C S : Type}
    (cmdExec : C → S → Bool × C × S)
    (h : CommandHistory.State C) (s : S)
    (hinv : CommandHistory.Inv h) :
    CommandHistory.Inv (CommandHistory.redo cmdExec h s).2.1 := by
  obtain ⟨h1, h2, h3⟩ := hinv
  unfold CommandHistory.redo CommandHistory.Inv
  dsimp only
  split_ifs with hend
  · exact ⟨h1, h2, h3⟩
  · split
    · exact ⟨h1, h2, h3⟩
    · rename_i cmd hget
      rcases cmdExec cmd s with ⟨b, c', s'⟩
      dsimp only
      cases b <;> simp [List.length_set] <;> omega

/-- C10: every sequence of `CommandHistory` operations from a fresh
instance — whatever the commands' `execute()`/`undo()` return — keeps
`-1 ≤ currentIndex ≤ history.length - 1` and
`history.length ≤ maxHistorySize`. -/
theorem commandHistory_invariant_all_op_sequences
    {C S : Type} (cmdExec cmdUndo : C → S → Bool × C × S)
    (maxSize : Nat) (ops : List (CommandHistory.Op C)) (s : S) :
    CommandHistory.Inv
      (CommandHistory.applyOps cmdExec cmdUndo ops
        (CommandHistory.init C maxSize, s)).1 := by
  have hstep : ∀ (ops : List (CommandHistory.Op C)) (h : CommandHistory.State C) (s : S),
      CommandHistory.Inv h →
      CommandHistory.Inv (CommandHistory.applyOps cmdExec cmdUndo ops (h, s)).1 := by
    intro ops
    induction ops with
    | nil => intro h s hi; exact hi
    | cons op rest ih =>
      intro h s hi
      unfold CommandHistory.applyOps
      cases op with
      | add c => exact ih _ _ (commandHistory_inv_addCommand h c hi)
      | undoOp =>
        dsimp only
        rcases hr : CommandHistory.undo cmdUndo h s with ⟨b, h', s'⟩
        have := commandHistory_inv_undo cmdUndo h s hi
        rw [hr] at this
        exact ih _ _ this
      | redoOp =>
        dsimp only
        rcases hr : CommandHistory.redo cmdExec h s with ⟨b, h', s'⟩
        have := commandHistory_inv_redo cmdExec h s hi
        rw [hr] at this
        exact ih _ _ this
      | clearOp =>
        refine ih _ _ ?_
        unfold CommandHistory.clear CommandHistory.Inv
        have : h.maxHistorySize = h.maxHistorySize := rfl
        simp
  apply hstep
  unfold CommandHistory.Inv CommandHistory.init
  norm_num
